import Mathlib

/-!
# rs485ctl: option resolution and RS-485 configuration negotiation

A shallow embedding of `src/rs485ctl.c`.

* `__u32` values are natural numbers; the C complement `~x` on a `__u32`
  is `0xFFFFFFFF ^^^ x` (`not32`).
* The module-level option variables (`opt_delay_before_send`, ...) are the
  fields of `Opts`; functions that mutate them take and return an `Opts`.
* `getopt_long` is libc: one call of it is one `Event` (the returned option
  code together with the value left in `optarg`), and the positional
  arguments left in `argv` after `optind` are a separate list.
* `exit`/`errx` are the error side of `Except Exit _`.
* The kernel (open, `TIOCGRS485`, `TIOCSRS485`) is a `Backend` value.
-/

namespace Rs485ctl

/-! ## Constants of `<linux/serial.h>` -/

/-- Flag `SER_RS485_ENABLED`, which is `1 << 0` in `<linux/serial.h>`. -/
def SER_RS485_ENABLED : Nat := 1

/-- Flag `SER_RS485_RTS_ON_SEND`, which is `1 << 1` in `<linux/serial.h>`. -/
def SER_RS485_RTS_ON_SEND : Nat := 2

/-- Flag `SER_RS485_RTS_AFTER_SEND`, which is `1 << 2` in `<linux/serial.h>`. -/
def SER_RS485_RTS_AFTER_SEND : Nat := 4

/-- Flag `SER_RS485_RX_DURING_TX`, which is `1 << 4` in `<linux/serial.h>`. -/
def SER_RS485_RX_DURING_TX : Nat := 16

/-- The C expression `~x` for a `__u32` operand. -/
def not32 (x : Nat) : Nat := 0xFFFFFFFF ^^^ x

/-- The record `struct serial_rs485` of `<linux/serial.h>`: three `__u32`
fields followed by five reserved `__u32` words (32 bytes, no holes). -/
structure serial_rs485 where
  flags : Nat
  delay_rts_before_send : Nat
  delay_rts_after_send : Nat
  padding : List Nat
deriving DecidableEq, Repr

/-- A record is well formed when every word fits a `__u32` and there are
five reserved words. -/
def serial_rs485.WF (c : serial_rs485) : Prop :=
  c.flags < 2 ^ 32 ∧ c.delay_rts_before_send < 2 ^ 32 ∧ c.delay_rts_after_send < 2 ^ 32 ∧
    c.padding.length = 5 ∧ ∀ w ∈ c.padding, w < 2 ^ 32

instance (c : serial_rs485) : Decidable c.WF := by
  unfold serial_rs485.WF; infer_instance

deriving instance DecidableEq for Except

/-! ## Module-level option state (lines 19-23) -/

/-- The static variables of lines 19-23. -/
structure Opts where
  opt_delay_before_send : Int
  opt_delay_after_send : Int
  opt_flags_on : Nat
  opt_flags_off : Nat
  opt_quiet : Int
deriving DecidableEq, Repr

/-- Initial values of the static variables: both delays `-1`, the rest zero. -/
def Opts.init : Opts :=
  ⟨-1, -1, 0, 0, 0⟩

/-- How the process ends when it does not return from a function:
`status` is the exit status and `stderr` the diagnostic written by `errx`,
without the program name that `errx` puts in front (empty for a plain
`exit`). -/
structure Exit where
  status : Nat
  stderr : String
deriving DecidableEq, Repr

/-- One return of `getopt_long` for the option string `"hvq"` and the table
`long_options` (lines 28-37 and 45-58): the option code together with what
`optarg` holds. A `required_argument` option always carries a string, an
`optional_argument` option carries a string or the null pointer (`none`),
a `no_argument` option carries nothing; `unknown` is the return `'?'`. -/
inductive Event where
  | h
  | v
  | q
  | OPT_DELAY_BEFORE_SEND (optarg : String)
  | OPT_DELAY_AFTER_SEND (optarg : String)
  | OPT_RTS_ON_SEND (optarg : Option String)
  | OPT_NO_RTS_ON_SEND
  | OPT_RTS_AFTER_SEND (optarg : Option String)
  | OPT_NO_RTS_AFTER_SEND
  | OPT_RX_DURING_TX (optarg : Option String)
  | OPT_NO_RX_DURING_TX
  | unknown
deriving DecidableEq, Repr

/-- The value `getopt_long` stores in `opt_index` for a long option: its row
in `long_options`. (The short options leave it alone; no code reads it for
them.) -/
def Event.opt_index : Event → Nat
  | .OPT_DELAY_BEFORE_SEND _ => 0
  | .OPT_DELAY_AFTER_SEND _ => 1
  | .OPT_RTS_ON_SEND _ => 2
  | .OPT_NO_RTS_ON_SEND => 3
  | .OPT_RTS_AFTER_SEND _ => 4
  | .OPT_NO_RTS_AFTER_SEND => 5
  | .OPT_RX_DURING_TX _ => 6
  | .OPT_NO_RX_DURING_TX => 7
  | .q => 8
  | .h => 9
  | .v => 10
  | .unknown => 0

/-- The `name` column of `long_options` (lines 45-58). -/
def long_options_name (idx : Nat) : String :=
  match idx with
  | 0 => "delay-before-send"
  | 1 => "delay-after-send"
  | 2 => "rts-on-send"
  | 3 => "no-rts-on-send"
  | 4 => "rts-after-send"
  | 5 => "no-rts-after-send"
  | 6 => "rx-during-tx"
  | 7 => "no-rx-during-tx"
  | 8 => "quiet"
  | 9 => "help"
  | 10 => "version"
  | _ => ""

/-! ## `set_flag`, `clear_flag` (lines 110-120) -/

/-- Function `set_flag`: `opt_flags_on |= flag; opt_flags_off &= ~flag;`. -/
def set_flag (flag : Nat) (o : Opts) : Opts :=
  let o1 := { o with opt_flags_on := o.opt_flags_on ||| flag }
  { o1 with opt_flags_off := o1.opt_flags_off &&& not32 flag }

/-- Function `clear_flag`: `opt_flags_off |= flag; opt_flags_on &= ~flag;`. -/
def clear_flag (flag : Nat) (o : Opts) : Opts :=
  let o1 := { o with opt_flags_off := o.opt_flags_off ||| flag }
  { o1 with opt_flags_on := o1.opt_flags_on &&& not32 flag }

/-- Function `parse_flag_optarg` (lines 122-131). -/
def parse_flag_optarg (optarg : Option String) (opt_index : Nat) : Except Exit Int :=
  match optarg with
  | none => .ok 1
  | some a =>
    if a = "0" then .ok 0
    else if a = "1" then .ok 1
    else .error ⟨1, "invalid argument to --" ++ long_options_name opt_index
      ++ " (must be 0 or 1)"⟩

/-! ## `strtol` (libc) and `parse_delay` (lines 100-108) -/

/-- The C predicate `isspace` in the C locale: space and `\t \n \v \f \r`. -/
def isspace (c : Char) : Bool :=
  c.toNat = 32 || (9 ≤ c.toNat && c.toNat ≤ 13)

/-- Value of a character as a digit in some base up to 36, as `strtol`
reads it: `0-9`, then letters of either case from 10. -/
def digit_value (c : Char) : Option Nat :=
  let n := c.toNat
  if 48 ≤ n ∧ n ≤ 57 then some (n - 48)
  else if 97 ≤ n ∧ n ≤ 122 then some (n - 87)
  else if 65 ≤ n ∧ n ≤ 90 then some (n - 55)
  else none

/-- Reads the longest run of digits valid in `base`; returns the
accumulated value and the number of characters read. -/
def scan_digits (base : Nat) : List Char → Nat → Nat → Nat × Nat
  | [], acc, n => (acc, n)
  | c :: cs, acc, n =>
    match digit_value c with
    | some d => if d < base then scan_digits base cs (acc * base + d) (n + 1) else (acc, n)
    | none => (acc, n)

/-- Largest value of a `long` where `long` has 64 bits (Linux LP64). -/
def LONG_MAX : Int := 2 ^ 63 - 1

/-- Smallest value of a `long` where `long` has 64 bits (Linux LP64). -/
def LONG_MIN : Int := -(2 ^ 63)

/-- ISO C11 `strtol(s, &endptr, 0)` on an LP64 target. Skips white space,
takes an optional sign, chooses the base from the prefix (`0x`/`0X` followed
by a hexadecimal digit: 16; a leading `0`: 8; otherwise 10), reads the
longest run of digits and clamps the result to the range of `long`.
Returns the value and `endptr - s`; when there is no digit, `(0, 0)`. -/
def strtol (s : List Char) : Int × Nat :=
  let ws := (s.takeWhile isspace).length
  let s1 := s.dropWhile isspace
  let neg := s1.head? = some (Char.ofNat 45)
  let sgn := if s1.head? = some (Char.ofNat 45) ∨ s1.head? = some (Char.ofNat 43) then 1 else 0
  let s2 := s1.drop sgn
  let hex : Bool :=
    match s2 with
    | c0 :: c1 :: c2 :: _ =>
      c0.toNat = 48 && (c1.toNat = 120 || c1.toNat = 88) &&
        (match digit_value c2 with
         | some d => decide (d < 16)
         | none => false)
    | _ => false
  let base := if hex then 16 else if s2.head? = some (Char.ofNat 48) then 8 else 10
  let pre := if hex then 2 else 0
  let r := scan_digits base (s2.drop pre) 0 0
  if r.2 = 0 then (0, 0)
  else
    let v : Int := if neg then max (-(r.1 : Int)) LONG_MIN else min (r.1 : Int) LONG_MAX
    (v, ws + sgn + pre + r.2)

/-- Conversion of a `long` to `int` as gcc defines it: reduction modulo
`2^32` into the range of `int`. -/
def long_to_int (v : Int) : Int :=
  (v + 2 ^ 31) % 2 ^ 32 - 2 ^ 31

/-- Function `parse_delay` (lines 100-108). `*endptr` is non-zero exactly
when `endptr` stops before the end of the string. -/
def parse_delay (arg : String) (idx : Nat) : Except Exit Int :=
  let r := strtol arg.toList
  let delay := long_to_int r.1
  if r.2 = 0 ∨ r.2 < arg.toList.length ∨ delay < 0 ∨ delay > 100 then
    .error ⟨1, "invalid argument to --" ++ long_options_name idx
      ++ " (must be integer in [0, 100])"⟩
  else .ok delay

/-! ## `parse_options` (lines 133-200) -/

/-- Body of `case OPT_NO_RTS_ON_SEND` (lines 169-172), also reached by
fall-through from `case OPT_RTS_ON_SEND`. -/
def case_OPT_NO_RTS_ON_SEND (o : Opts) : Opts :=
  clear_flag SER_RS485_RTS_ON_SEND (set_flag SER_RS485_RTS_AFTER_SEND o)

/-- Body of `case OPT_NO_RTS_AFTER_SEND` (lines 181-184), also reached by
fall-through from `case OPT_RTS_AFTER_SEND`. -/
def case_OPT_NO_RTS_AFTER_SEND (o : Opts) : Opts :=
  clear_flag SER_RS485_RTS_AFTER_SEND (set_flag SER_RS485_RTS_ON_SEND o)

/-- Body of `case OPT_NO_RX_DURING_TX` (lines 192-194), also reached by
fall-through from `case OPT_RX_DURING_TX`. -/
def case_OPT_NO_RX_DURING_TX (o : Opts) : Opts :=
  clear_flag SER_RS485_RX_DURING_TX o

/-- The `switch (opt)` of `parse_options` (lines 143-198): one iteration
of the loop for one return of `getopt_long`. `help` and `version` print and
`exit(0)`; `'?'` is `exit(1)`. -/
def parse_options_switch (e : Event) (o : Opts) : Except Exit Opts :=
  match e with
  | .h => .error ⟨0, ""⟩
  | .v => .error ⟨0, ""⟩
  | .q => .ok { o with opt_quiet := 1 }
  | .OPT_DELAY_BEFORE_SEND a =>
    match parse_delay a e.opt_index with
    | .ok d => .ok { o with opt_delay_before_send := d }
    | .error x => .error x
  | .OPT_DELAY_AFTER_SEND a =>
    match parse_delay a e.opt_index with
    | .ok d => .ok { o with opt_delay_after_send := d }
    | .error x => .error x
  | .OPT_RTS_ON_SEND a =>
    match parse_flag_optarg a e.opt_index with
    | .ok r =>
      if r ≠ 0 then .ok (clear_flag SER_RS485_RTS_AFTER_SEND (set_flag SER_RS485_RTS_ON_SEND o))
      else .ok (case_OPT_NO_RTS_ON_SEND o)
    | .error x => .error x
  | .OPT_NO_RTS_ON_SEND => .ok (case_OPT_NO_RTS_ON_SEND o)
  | .OPT_RTS_AFTER_SEND a =>
    match parse_flag_optarg a e.opt_index with
    | .ok r =>
      if r ≠ 0 then .ok (clear_flag SER_RS485_RTS_ON_SEND (set_flag SER_RS485_RTS_AFTER_SEND o))
      else .ok (case_OPT_NO_RTS_AFTER_SEND o)
    | .error x => .error x
  | .OPT_NO_RTS_AFTER_SEND => .ok (case_OPT_NO_RTS_AFTER_SEND o)
  | .OPT_RX_DURING_TX a =>
    match parse_flag_optarg a e.opt_index with
    | .ok r =>
      if r ≠ 0 then .ok (set_flag SER_RS485_RX_DURING_TX o)
      else .ok (case_OPT_NO_RX_DURING_TX o)
    | .error x => .error x
  | .OPT_NO_RX_DURING_TX => .ok (case_OPT_NO_RX_DURING_TX o)
  | .unknown => .error ⟨1, ""⟩

/-- The `while (1)` loop of `parse_options`, started in state `o`: the
list holds the successive returns of `getopt_long`, and its end is the
return `-1`. -/
def parse_options_from (o : Opts) : List Event → Except Exit Opts
  | [] => .ok o
  | e :: es =>
    match parse_options_switch e o with
    | .ok o1 => parse_options_from o1 es
    | .error x => .error x

/-- Function `parse_options` (lines 133-200), run on the initial values of
the option variables. -/
def parse_options (events : List Event) : Except Exit Opts :=
  parse_options_from Opts.init events

/-! ## `show_rs485` (lines 202-214) -/

/-- What `printf("%d", x)` writes for a `__u32` argument `x`: the decimal
form of the same 32 bits read as an `int`, that is the digits of `x` below
2^31 and a minus sign with the digits of `2^32 - x` from there on. -/
def printf_d (x : Nat) : String :=
  if x < 2147483648 then toString x else "-" ++ toString (4294967296 - x)

/-- The C expression `!!(flags & bit)`. -/
def flag_bit (flags bit : Nat) : Nat :=
  if flags &&& bit ≠ 0 then 1 else 0

/-- Function `show_rs485` (lines 202-214): the lines written to standard
output, in order. -/
def show_rs485 (dev : String) (conf : serial_rs485) : List String :=
  let first := dev ++ ": rs485 " ++ (if conf.flags &&& SER_RS485_ENABLED ≠ 0 then "on" else "off")
  if conf.flags &&& SER_RS485_ENABLED = 0 then [first]
  else
    [first,
     "delay-before-send: " ++ printf_d conf.delay_rts_before_send,
     "delay-after-send: " ++ printf_d conf.delay_rts_after_send,
     "rts-on-send: " ++ toString (flag_bit conf.flags SER_RS485_RTS_ON_SEND),
     "rts-after-send: " ++ toString (flag_bit conf.flags SER_RS485_RTS_AFTER_SEND),
     "rx-during-tx: " ++ toString (flag_bit conf.flags SER_RS485_RX_DURING_TX)]

/-! ## `main` (lines 217-315) -/

/-- The actions of lines 39-43. -/
inductive Action where
  | ACTION_ON
  | ACTION_OFF
  | ACTION_SHOW
deriving DecidableEq, Repr

/-- The kernel as `main` sees it. `open_ok dev` tells whether `open`
returns a descriptor; `get` is `TIOCGRS485` (`none`: the ioctl fails,
`some c`: it fills `conf` with `c`); `set c` is `TIOCSRS485` on `c`
(`none`: the ioctl fails, `some e`: it overwrites `conf` with the
configuration `e` the driver put in effect). -/
structure Backend where
  open_ok : String → Bool
  get : Option serial_rs485
  set : serial_rs485 → Option serial_rs485

/-- Everything observable of one run: exit status, the lines on standard
error (each without the program name that `err`, `errx` and `warnx` put in
front) and on standard output, the devices passed to `open`, the number of
`TIOCGRS485` requests and the records passed to `TIOCSRS485`. -/
structure Run where
  status : Nat
  stderr : List String
  stdout : List String
  opened : List String
  gets : Nat
  sets : List serial_rs485
deriving DecidableEq, Repr

/-- The result of `memset(&conf, 0, sizeof(conf))`. -/
def zero_conf : serial_rs485 :=
  ⟨0, 0, 0, [0, 0, 0, 0, 0]⟩

/-- Whether `memcmp(&a, &b, sizeof(a))` is non-zero: the structure has no
holes, so the bytes differ exactly when some word differs. -/
def memcmp (a b : serial_rs485) : Bool :=
  decide (a ≠ b)

/-- The branch `action == ACTION_ON` of `main` (lines 259-291): the new
value of `conf` and of `rts_on_send_hack`. A delay is stored only when the
`int` is non-negative, where conversion to `__u32` keeps the value. -/
def action_on (o : Opts) (conf : serial_rs485) : serial_rs485 × Bool :=
  let c1 := if o.opt_delay_before_send ≥ 0
    then { conf with delay_rts_before_send := o.opt_delay_before_send.toNat } else conf
  let c2 := if o.opt_delay_after_send ≥ 0
    then { c1 with delay_rts_after_send := o.opt_delay_after_send.toNat } else c1
  let c3 := { c2 with flags := c2.flags &&& not32 o.opt_flags_off }
  let c4 := { c3 with flags := c3.flags ||| o.opt_flags_on }
  let c5 := { c4 with flags := c4.flags ||| SER_RS485_ENABLED }
  if c5.flags &&& (SER_RS485_RTS_ON_SEND ||| SER_RS485_RTS_AFTER_SEND) = 0 then
    ({ c5 with flags := c5.flags ||| SER_RS485_RTS_ON_SEND }, true)
  else (c5, false)

/-- Lines 259-294: what the action makes of the record read from the
kernel, and whether the workaround was applied. -/
def apply_action (action : Action) (o : Opts) (conf : serial_rs485) : serial_rs485 × Bool :=
  match action with
  | .ACTION_ON => action_on o conf
  | .ACTION_OFF => (zero_conf, false)
  | .ACTION_SHOW => (conf, false)

/-- The line `warnx` writes at line 308. -/
def mismatch_warning : String :=
  "not all settings applied by the kernel"

/-- The sanity check of lines 301-308: the lines `warnx` writes, given
`wanted_conf`, the `conf` the kernel wrote back and `rts_on_send_hack`. -/
def sanity_check (wanted_conf conf : serial_rs485) (rts_on_send_hack : Bool) : List String :=
  let w := if memcmp wanted_conf conf && rts_on_send_hack
    then { wanted_conf with flags := wanted_conf.flags &&& not32 SER_RS485_RTS_ON_SEND }
    else wanted_conf
  if memcmp w conf then [mismatch_warning] else []

/-- Lines 246-314 of `main`: open the device, read the configuration,
apply the action, write and check it, and print. (The text of the system
error that `err` appends is left out of the diagnostics.) -/
def run_action (action : Action) (device : String) (o : Opts) (k : Backend) : Run :=
  if k.open_ok device = false then
    ⟨1, ["cannot open " ++ device], [], [device], 0, []⟩
  else
    match k.get with
    | none => ⟨1, ["cannot get rs485 configuration for " ++ device], [], [device], 1, []⟩
    | some conf0 =>
      let r := apply_action action o conf0
      if action ≠ .ACTION_SHOW then
        match k.set r.1 with
        | none =>
          ⟨1, ["cannot set rs485 configuration for " ++ device], [], [device], 1, [r.1]⟩
        | some conf =>
          ⟨0, sanity_check r.1 conf r.2,
            if action = .ACTION_SHOW ∨ o.opt_quiet = 0 then show_rs485 device conf else [],
            [device], 1, [r.1]⟩
      else
        ⟨0, [], if action = .ACTION_SHOW ∨ o.opt_quiet = 0 then show_rs485 device r.1 else [],
          [device], 1, []⟩

/-- A run that ends in `errx(status, msg)` or `exit(status)` before the
device is opened. (What `help`, `version` and `getopt_long` itself print
is left out.) -/
def Run.early (x : Exit) : Run :=
  ⟨x.status, if x.stderr = "" then [] else [x.stderr], [], [], 0, []⟩

/-- Lines 229-244 of `main`: the positional arguments left after the
options give the action and the device. -/
def parse_positional (args : List String) : Except Exit (Action × String) :=
  match args with
  | [] => .error ⟨1, "missing device"⟩
  | [device] => .ok (.ACTION_SHOW, device)
  | [a, device] =>
    if a = "on" then .ok (.ACTION_ON, device)
    else if a = "off" then .ok (.ACTION_OFF, device)
    else if a = "show" then .ok (.ACTION_SHOW, device)
    else .error ⟨1, "invalid action " ++ a⟩
  | _ :: _ :: _ :: _ => .error ⟨1, "too many positional arguments"⟩

/-- Function `main` (lines 217-315). `events` are the returns of
`getopt_long` in order and `args` the positional arguments left in `argv`.
A failing `assert` ends the run by `abort`, status 134. -/
def main (events : List Event) (args : List String) (k : Backend) : Run :=
  match parse_options events with
  | .error x => Run.early x
  | .ok o =>
    if o.opt_flags_on &&& o.opt_flags_off ≠ 0 then
      Run.early ⟨134, "Assertion failed"⟩
    else
      match parse_positional args with
      | .error x => Run.early x
      | .ok (action, device) => run_action action device o k

/-! ## Predicates used to state the properties -/

/-- The two masks share no bit: `opt_flags_on & opt_flags_off` is zero,
the condition asserted at line 227. -/
def Opts.Disjoint (o : Opts) : Prop :=
  o.opt_flags_on &&& o.opt_flags_off = 0

instance (o : Opts) : Decidable o.Disjoint := by
  unfold Opts.Disjoint; infer_instance

/-- The C test `flags & bit`: the flag `bit` is present in `flags`. -/
def has_flag (flags bit : Nat) : Prop :=
  flags &&& bit ≠ 0

instance (flags bit : Nat) : Decidable (has_flag flags bit) := by
  unfold has_flag; infer_instance

/-- Which of the two RTS alternatives an option event selects. -/
inductive RtsChoice where
  | on_send
  | after_send
deriving DecidableEq, Repr

/-- The alternative an RTS-pair event selects, in the words of the help
text: `--rts-on-send` bare or with `1`, `--rts-after-send=0` and
`--no-rts-after-send` select on-send; `--rts-after-send` bare or with `1`,
`--rts-on-send=0` and `--no-rts-on-send` select after-send. Every other
event is not an RTS-pair event. -/
def Event.rts_choice : Event → Option RtsChoice
  | .OPT_RTS_ON_SEND none => some .on_send
  | .OPT_RTS_ON_SEND (some a) =>
    if a = "1" then some .on_send else if a = "0" then some .after_send else none
  | .OPT_NO_RTS_ON_SEND => some .after_send
  | .OPT_RTS_AFTER_SEND none => some .after_send
  | .OPT_RTS_AFTER_SEND (some a) =>
    if a = "1" then some .after_send else if a = "0" then some .on_send else none
  | .OPT_NO_RTS_AFTER_SEND => some .on_send
  | _ => none

/-- The choice of the last RTS-pair event of a sequence, if it has one. -/
def last_rts_choice (events : List Event) : Option RtsChoice :=
  (events.filterMap Event.rts_choice).getLast?

/-- The RTS part of the two masks: bits 1 (`SER_RS485_RTS_ON_SEND`) and 2
(`SER_RS485_RTS_AFTER_SEND`) of `opt_flags_on`, then of `opt_flags_off`. -/
def Opts.rts_bits (o : Opts) : (Bool × Bool) × (Bool × Bool) :=
  ((o.opt_flags_on.testBit 1, o.opt_flags_on.testBit 2),
   (o.opt_flags_off.testBit 1, o.opt_flags_off.testBit 2))

/-- The RTS part of the masks that a choice stands for. -/
def RtsChoice.bits : RtsChoice → (Bool × Bool) × (Bool × Bool)
  | .on_send => ((true, false), (false, true))
  | .after_send => ((false, true), (true, false))

/-- Two records agree in everything except possibly the
`SER_RS485_RTS_ON_SEND` bit (bit 1 of `flags`): same delays, same reserved
words, and the same value in each of the other 31 flag bits. -/
def same_except_rts_on_send (a b : serial_rs485) : Prop :=
  a.delay_rts_before_send = b.delay_rts_before_send ∧
  a.delay_rts_after_send = b.delay_rts_after_send ∧
  a.padding = b.padding ∧
  ∀ i, i < 32 → i ≠ 1 → a.flags.testBit i = b.flags.testBit i

instance (a b : serial_rs485) : Decidable (same_except_rts_on_send a b) := by
  unfold same_except_rts_on_send; infer_instance

/-- A kernel that accepts every request and keeps everything except the
`SER_RS485_RTS_ON_SEND` bit, as a driver without RTS control does. -/
def backend_without_rts : Backend :=
  ⟨fun _ => true, some zero_conf,
    fun c => some { c with flags := c.flags &&& not32 SER_RS485_RTS_ON_SEND }⟩

/-- A kernel that accepts every request, reports a record with every
setting in use and puts in effect exactly what it is given. -/
def backend_echo : Backend :=
  ⟨fun _ => true, some ⟨23, 5, 9, [1, 2, 3, 4, 5]⟩, fun c => some c⟩

/-- A kernel that accepts every request, reports the all-zero record of a
port whose RS-485 mode is off, and puts in effect exactly what it is
given. -/
def backend_fresh : Backend :=
  ⟨fun _ => true, some zero_conf, fun c => some c⟩

/-- The spec's verification step, first half, in its words: "Compute
`expected := desired`; if `workaroundApplied`, clear `rtsOnSend` in
`expected` before comparing". -/
def spec_expected (desired : serial_rs485) (workaroundApplied : Bool) : serial_rs485 :=
  if workaroundApplied then
    { desired with flags := desired.flags &&& not32 SER_RS485_RTS_ON_SEND }
  else desired

/-- The spec's verification step, second half, in its words: "Compare
`expected` to `effective` field-by-field. Any mismatch is a non-fatal
warning". The result is the list of warnings. -/
def spec_verification (desired effective : serial_rs485) (workaroundApplied : Bool) :
    List String :=
  if spec_expected desired workaroundApplied ≠ effective then [mismatch_warning] else []

/-- The run ended with a non-zero exit status before any operation on the
kernel: nothing was opened, read or written. -/
def Run.usage_error (r : Run) : Prop :=
  r.status ≠ 0 ∧ r.opened = [] ∧ r.gets = 0 ∧ r.sets = []

instance (r : Run) : Decidable r.usage_error := by
  unfold Run.usage_error; infer_instance

end Rs485ctl

/-!
# md: dump of physical memory

A shallow embedding of `src/md.c`.

* `unsigned long` has 64 bits (LP64): values are natural numbers, and the
  operations that can wrap are taken modulo `2^64`.
* The static variables `width`, `wmask`, `wshift` are the fields of
  `Globals`.
* The 16 bytes of the union in `struct line` are a list of bytes; an
  access outside the array, a failed `assert` and `error(1, ...)` are
  values of `Fault`. The host is little-endian.
* `/dev/mem` is a `DevMem` value.
* Each loop takes a bound on the number of iterations and ends in
  `Fault.out_of_fuel` when it is used up.
-/

namespace Md

/-- The macro `PAGE_SIZE`. -/
def PAGE_SIZE : Nat := 4096

/-- Number of values of an `unsigned long`. -/
def ULONG_MOD : Nat := 2 ^ 64

/-- The static variables of lines 20-22. -/
structure Globals where
  width : Nat
  wmask : Nat
  wshift : Nat
deriving DecidableEq, Repr

/-- The record `struct line` (lines 24-34); `u8` holds the 16 bytes of the
union. -/
structure line where
  u8 : List Nat
  base : Nat
  offset : Nat
  len : Nat
deriving DecidableEq, Repr

/-- What ends a run early: a failed `assert` (`AZ`, `assert(0)`), an index
outside an array of the union, `error(1, ...)`, or a loop bound used up. -/
inductive Fault where
  | assertion
  | out_of_bounds
  | exit (status : Nat)
  | out_of_fuel
deriving DecidableEq, Repr

/-- The device `/dev/mem`: whether `open` succeeds, whether `mmap` of the
page at a physical address succeeds, and the byte at each physical
address. -/
structure DevMem where
  open_ok : Bool
  mmap_ok : Nat → Bool
  byte : Nat → Nat

/-- Function `page_addr` (lines 36-39): `~(PAGE_SIZE - 1)` is the `int`
`-4096`, converted to `unsigned long`. -/
def page_addr (addr : Nat) : Nat :=
  addr &&& (ULONG_MOD - PAGE_SIZE)

/-- Function `page_offset` (lines 40-43). -/
def page_offset (addr : Nat) : Nat :=
  addr &&& (PAGE_SIZE - 1)

/-- Value of a little-endian sequence of bytes. -/
def le_value : List Nat → Nat
  | [] => 0
  | b :: bs => b % 256 + 256 * le_value bs

/-- The `n` little-endian bytes of a value. -/
def le_bytes : Nat → Nat → List Nat
  | 0, _ => []
  | n + 1, v => v % 256 :: le_bytes n (v / 256)

/-- Read of element `idx` of the array of `width`-byte words of the union
(`u8[idx]`, `u16[idx]`, `u32[idx]`, `u64[idx]`); `none` outside the
array. -/
def get_le (u8 : List Nat) (width idx : Nat) : Option Nat :=
  if (idx + 1) * width ≤ 16 then some (le_value ((u8.drop (idx * width)).take width))
  else none

/-- Store into element `idx` of the array of `width`-byte words of the
union; `none` outside the array. -/
def set_le (u8 : List Nat) (width idx v : Nat) : Option (List Nat) :=
  if (idx + 1) * width ≤ 16 then
    some (u8.take (idx * width) ++ le_bytes width v ++ u8.drop (idx * width + width))
  else none

/-- One hexadecimal digit, lower case. -/
def hex_digit (n : Nat) : Char :=
  Char.ofNat (if n < 10 then 48 + n else 87 + n)

/-- The hexadecimal digits of `v`, most significant first, at most as many
as the bound. -/
def hex_digits : Nat → Nat → List Char
  | 0, _ => []
  | f + 1, v => if v < 16 then [hex_digit v] else hex_digits f (v / 16) ++ [hex_digit (v % 16)]

/-- What `printf("%0<digits>x", v)` writes for a value below `2^64`: the
hexadecimal digits of `v`, with zeros in front up to `digits`
characters. -/
def printf_0x (digits v : Nat) : List Char :=
  List.replicate (digits - (hex_digits 16 v).length) '0' ++ hex_digits 16 v

/-- The field width `printf` takes from `(int)p` for `%*s`: the low 32 bits
of `p` read as an `int`, and for a negative value its magnitude. -/
def star_width (p : Nat) : Nat :=
  if p % 4294967296 < 2147483648 then p % 4294967296 else 4294967296 - p % 4294967296

/-- The `for` loop of lines 60-67 of `print_line`, from `idx`, `len` and
`count`: the characters written and the final `count`. The `switch` has no
`default`: another width writes nothing. -/
def print_line_values (g : Globals) (u8 : List Nat) :
    Nat → Nat → Nat → Nat → Except Fault (List Char × Nat)
  | fuel, idx, len, count =>
    if len = 0 then .ok ([], count)
    else
      match fuel with
      | 0 => .error .out_of_fuel
      | f + 1 =>
        if g.width = 1 ∨ g.width = 2 ∨ g.width = 4 ∨ g.width = 8 then
          match get_le u8 g.width idx with
          | none => .error .out_of_bounds
          | some v =>
            let s := ' ' :: printf_0x (2 * g.width) v
            match print_line_values g u8 f (idx + 1)
                ((len + ULONG_MOD - g.width) % ULONG_MOD) (count + s.length) with
            | .ok r => .ok (s ++ r.1, r.2)
            | .error e => .error e
        else
          print_line_values g u8 f (idx + 1) ((len + ULONG_MOD - g.width) % ULONG_MOD) count

/-- The loop of lines 70-73 of `print_line`: the 16 bytes as characters,
a dot for each byte outside `0x20 .. 0x7e`. -/
def print_line_ascii (u8 : List Nat) : List Char :=
  (List.range 16).map fun idx =>
    let b := u8.getD idx 0
    if 0x20 ≤ b ∧ b < 0x7f then Char.ofNat b else '.'

/-- The characters `print_line` writes between the address with its colon
and the 16 characters of the last column: the blanks of `%*s` (line 59),
the values (lines 60-67) and the blanks of the `while` loop (lines
68-69). -/
def print_line_middle (g : Globals) (fuel : Nat) (l : line) : Except Fault (List Char) :=
  let pad := List.replicate
    (star_width (((1 + 2 * g.width) * (l.offset >>> g.wshift)) % ULONG_MOD)) ' '
  match print_line_values g l.u8 fuel (l.offset >>> g.wshift) l.len 0 with
  | .error e => .error e
  | .ok r => .ok (pad ++ r.1 ++ List.replicate (52 - r.2) ' ')

/-- Function `print_line` (lines 50-75): the characters written to
standard output. -/
def print_line (g : Globals) (fuel : Nat) (l : line) : Except Fault (List Char) :=
  if l.base &&& 15 ≠ 0 then .error .assertion
  else if l.offset &&& g.wmask ≠ 0 then .error .assertion
  else if l.len &&& g.wmask ≠ 0 then .error .assertion
  else
    match print_line_middle g fuel l with
    | .error e => .error e
    | .ok middle =>
      .ok (printf_0x 8 l.base ++ [':'] ++ middle ++ print_line_ascii l.u8 ++ [Char.ofNat 10])

/-- The value of `*(volatile uintN_t *)(p)` for the `width` bytes at the
physical address `pa`. -/
def read_mem (m : DevMem) (width pa : Nat) : Nat :=
  le_value ((List.range width).map fun j => m.byte (pa + j))

/-- The `for` loop of lines 112-120 of `dump`, from `index`, `len` and
`addr`, reading through the mapping of the page `page`: the bytes of the
line and the final `addr`. The `switch` has no `default`: another width
stores nothing. -/
def dump_fill (g : Globals) (m : DevMem) (page : Nat) :
    Nat → Nat → Nat → Nat → List Nat → Except Fault (List Nat × Nat)
  | fuel, index, len, addr, u8 =>
    if len = 0 then .ok (u8, addr)
    else
      match fuel with
      | 0 => .error .out_of_fuel
      | f + 1 =>
        if g.width = 1 ∨ g.width = 2 ∨ g.width = 4 ∨ g.width = 8 then
          match set_le u8 g.width index (read_mem m g.width (page + page_offset addr)) with
          | none => .error .out_of_bounds
          | some u8n =>
            dump_fill g m page f (index + 1) ((len + ULONG_MOD - g.width) % ULONG_MOD)
              ((addr + g.width) % ULONG_MOD) u8n
        else
          dump_fill g m page f (index + 1) ((len + ULONG_MOD - g.width) % ULONG_MOD)
            ((addr + g.width) % ULONG_MOD) u8

/-- The `while (size)` loop of `dump` (lines 87-124), from `addr`, `size`
and the page currently mapped (`none` while `map` is null): each line
passed to `print_line` with what `print_line` wrote for it. `~15` is the
`int` `-16`, converted to `unsigned long`. The bound `fuel` is also the
bound of the two inner loops. -/
def dump_loop (g : Globals) (m : DevMem) (fuel : Nat) :
    Nat → Nat → Nat → Option Nat → Except Fault (List (line × List Char))
  | n, addr, size, map =>
    if size = 0 then .ok []
    else
      match n with
      | 0 => .error .out_of_fuel
      | f + 1 =>
        let page := page_addr addr
        if map ≠ some page ∧ m.mmap_ok page = false then .error (.exit 1)
        else if addr &&& g.wmask ≠ 0 then .error .assertion
        else if size &&& g.wmask ≠ 0 then .error .assertion
        else
          let base := addr &&& (ULONG_MOD - 16)
          let offset := addr &&& 15
          let len0 := 16 - offset
          let len := if len0 > size then size else len0
          if len &&& g.wmask ≠ 0 then .error .assertion
          else
            match dump_fill g m page fuel (offset >>> g.wshift) len addr
                (List.replicate 16 0) with
            | .error e => .error e
            | .ok r =>
              let l : line := ⟨r.1, base, offset, len⟩
              match print_line g fuel l with
              | .error e => .error e
              | .ok text =>
                match dump_loop g m fuel f r.2 ((size + ULONG_MOD - len) % ULONG_MOD)
                    (some page) with
                | .error e => .error e
                | .ok rest => .ok ((l, text) :: rest)

/-- Function `dump` (lines 77-125). -/
def dump (g : Globals) (m : DevMem) (fuel addr size : Nat) :
    Except Fault (List (line × List Char)) :=
  if m.open_ok = false then .error (.exit 1)
  else dump_loop g m fuel fuel addr size none

/-- Lines 144-151 of `main`: `wshift` and `wmask` for the chosen `width`;
any width other than 1, 2, 4, 8 is `assert(0)`. -/
def setup (width : Nat) : Except Fault Globals :=
  if width = 1 then .ok ⟨width, width - 1, 0⟩
  else if width = 2 then .ok ⟨width, width - 1, 1⟩
  else if width = 4 then .ok ⟨width, width - 1, 2⟩
  else if width = 8 then .ok ⟨width, width - 1, 3⟩
  else .error .assertion

/-- Lines 144-151 and 177-180 of `main`, after the options gave `width`
and the arguments gave `addr` and `size`: set up the globals, refuse an
unaligned address or size with `error(1, ...)`, and dump. -/
def main_dump (m : DevMem) (fuel width addr size : Nat) :
    Except Fault (List (line × List Char)) :=
  match setup width with
  | .error e => .error e
  | .ok g =>
    if addr &&& (width - 1) ≠ 0 ∨ size &&& (width - 1) ≠ 0 then .error (.exit 1)
    else dump g m fuel addr size

/-- The globals are as `main` sets them up: `width` is 1, 2, 4 or 8,
`wshift` its binary logarithm and `wmask` is `width - 1`. -/
def Globals.valid (g : Globals) : Prop :=
  (g.width = 1 ∧ g.wshift = 0 ∨ g.width = 2 ∧ g.wshift = 1 ∨
    g.width = 4 ∧ g.wshift = 2 ∨ g.width = 8 ∧ g.wshift = 3) ∧
  g.wmask = g.width - 1

instance (g : Globals) : Decidable g.valid := by
  unfold Globals.valid; infer_instance

/-- The lines start one after the other from `a`: the first at `a`, each
next one where the one before ended. -/
def consecutive : Nat → List line → Prop
  | _, [] => True
  | a, l :: ls => l.base + l.offset = a ∧ consecutive (a + l.len) ls

/-- A memory device that opens, maps every page and holds the low byte of
each address at that address. -/
def counting_mem : DevMem :=
  ⟨true, fun _ => true, fun a => a % 256⟩

end Md

namespace Rs485ctl

/-! ## Bit-level lemmas -/

theorem testBit_mask32 (i : Nat) : (0xFFFFFFFF : Nat).testBit i = decide (i < 32) := by
  have h : (0xFFFFFFFF : Nat) = 2 ^ 32 - 1 := by norm_num
  rw [h, Nat.testBit_two_pow_sub_one]

theorem testBit_not32 (x i : Nat) :
    (not32 x).testBit i = (decide (i < 32) != x.testBit i) := by
  unfold not32
  rw [Nat.testBit_xor, testBit_mask32]

theorem and_eq_zero_iff (a b : Nat) :
    a &&& b = 0 ↔ ∀ i, a.testBit i = true → b.testBit i = false := by
  constructor
  · intro h i ha
    have := congrArg (fun n => n.testBit i) h
    simp [Nat.testBit_and, ha] at this
    exact this
  · intro h
    apply Nat.eq_of_testBit_eq
    intro i
    rw [Nat.testBit_and, Nat.zero_testBit]
    cases ha : a.testBit i
    · simp
    · simp [h i ha]

theorem testBit_high_false {x i : Nat} (hx : x < 2 ^ 32) (hi : 32 ≤ i) :
    x.testBit i = false := by
  apply Nat.testBit_lt_two_pow
  calc x < 2 ^ 32 := hx
    _ ≤ 2 ^ i := Nat.pow_le_pow_right (by norm_num) hi

/-! ## The masks stay disjoint -/

theorem set_flag_disjoint (flag : Nat) (o : Opts) (hf : flag < 2 ^ 32) (h : o.Disjoint) :
    (set_flag flag o).Disjoint := by
  unfold Opts.Disjoint at *
  rw [and_eq_zero_iff] at *
  intro i hi
  simp only [set_flag, Nat.testBit_or, Nat.testBit_and, testBit_not32] at *
  by_cases h32 : i < 32
  · cases hfl : flag.testBit i
    · simp [hfl] at hi
      simp [h i hi]
    · simp [h32]
  · have := testBit_high_false hf (Nat.le_of_not_lt h32)
    simp [this] at hi
    simp [h i hi]

theorem clear_flag_disjoint (flag : Nat) (o : Opts) (hf : flag < 2 ^ 32) (h : o.Disjoint) :
    (clear_flag flag o).Disjoint := by
  unfold Opts.Disjoint at *
  rw [and_eq_zero_iff] at *
  intro i hi
  simp only [clear_flag, Nat.testBit_or, Nat.testBit_and, testBit_not32] at *
  by_cases h32 : i < 32
  · cases hfl : flag.testBit i
    · simp [hfl, h32] at hi
      simp [h i hi, hfl]
    · simp [hfl, h32] at hi
  · have := testBit_high_false hf (Nat.le_of_not_lt h32)
    simp [this, h32] at hi

theorem parse_options_switch_disjoint (e : Event) (o o1 : Opts) (h : o.Disjoint)
    (hs : parse_options_switch e o = .ok o1) : o1.Disjoint := by
  have hON : SER_RS485_RTS_ON_SEND < 2 ^ 32 := by decide
  have hAF : SER_RS485_RTS_AFTER_SEND < 2 ^ 32 := by decide
  have hRX : SER_RS485_RX_DURING_TX < 2 ^ 32 := by decide
  have hA := clear_flag_disjoint _ _ hON (set_flag_disjoint _ _ hAF h)
  have hB := clear_flag_disjoint _ _ hAF (set_flag_disjoint _ _ hON h)
  have hC := set_flag_disjoint _ _ hRX h
  have hD := clear_flag_disjoint _ _ hRX h
  cases e <;> simp only [parse_options_switch] at hs
  case h => cases hs
  case v => cases hs
  case q => cases hs; exact h
  case OPT_DELAY_BEFORE_SEND a =>
    split at hs
    · cases hs; exact h
    · cases hs
  case OPT_DELAY_AFTER_SEND a =>
    split at hs
    · cases hs; exact h
    · cases hs
  case OPT_RTS_ON_SEND a =>
    split at hs
    · split at hs <;> cases hs
      · exact hB
      · exact hA
    · cases hs
  case OPT_NO_RTS_ON_SEND => cases hs; exact hA
  case OPT_RTS_AFTER_SEND a =>
    split at hs
    · split at hs <;> cases hs
      · exact hA
      · exact hB
    · cases hs
  case OPT_NO_RTS_AFTER_SEND => cases hs; exact hB
  case OPT_RX_DURING_TX a =>
    split at hs
    · split at hs <;> cases hs
      · exact hC
      · exact hD
    · cases hs
  case OPT_NO_RX_DURING_TX => cases hs; exact hD
  case unknown => cases hs

theorem parse_options_from_disjoint (events : List Event) :
    ∀ (o o1 : Opts), o.Disjoint → parse_options_from o events = .ok o1 → o1.Disjoint := by
  induction events with
  | nil =>
    intro o o1 h hs
    simp only [parse_options_from] at hs
    cases hs
    exact h
  | cons e es ih =>
    intro o o1 h hs
    simp only [parse_options_from] at hs
    split at hs
    · rename_i o2 h2
      exact ih o2 o1 (parse_options_switch_disjoint e o o2 h h2) hs
    · cases hs

theorem parse_options_disjoint (events : List Event) (o : Opts)
    (h : parse_options events = .ok o) : o.Disjoint :=
  parse_options_from_disjoint events Opts.init o (by decide) h

theorem parse_delay_status (arg : String) (idx : Nat) (x : Exit)
    (h : parse_delay arg idx = .error x) : x.status ≤ 1 := by
  simp only [parse_delay] at h
  split at h
  · cases h; simp
  · cases h

theorem parse_flag_optarg_status (a : Option String) (idx : Nat) (x : Exit)
    (h : parse_flag_optarg a idx = .error x) : x.status ≤ 1 := by
  unfold parse_flag_optarg at h
  split at h
  · cases h
  · split at h
    · cases h
    · split at h
      · cases h
      · cases h; simp

theorem parse_options_switch_status (e : Event) (o : Opts) (x : Exit)
    (hs : parse_options_switch e o = .error x) : x.status ≤ 1 := by
  cases e <;> simp only [parse_options_switch] at hs
  case h => cases hs; simp
  case v => cases hs; simp
  case q => cases hs
  case OPT_DELAY_BEFORE_SEND a =>
    split at hs
    · cases hs
    · rename_i y hy
      cases hs
      exact parse_delay_status _ _ _ hy
  case OPT_DELAY_AFTER_SEND a =>
    split at hs
    · cases hs
    · rename_i y hy
      cases hs
      exact parse_delay_status _ _ _ hy
  case OPT_RTS_ON_SEND a =>
    split at hs
    · split at hs <;> cases hs
    · rename_i y hy
      cases hs
      exact parse_flag_optarg_status _ _ _ hy
  case OPT_NO_RTS_ON_SEND => cases hs
  case OPT_RTS_AFTER_SEND a =>
    split at hs
    · split at hs <;> cases hs
    · rename_i y hy
      cases hs
      exact parse_flag_optarg_status _ _ _ hy
  case OPT_NO_RTS_AFTER_SEND => cases hs
  case OPT_RX_DURING_TX a =>
    split at hs
    · split at hs <;> cases hs
    · rename_i y hy
      cases hs
      exact parse_flag_optarg_status _ _ _ hy
  case OPT_NO_RX_DURING_TX => cases hs
  case unknown => cases hs; simp

theorem parse_options_from_status (events : List Event) :
    ∀ (o : Opts) (x : Exit), parse_options_from o events = .error x → x.status ≤ 1 := by
  induction events with
  | nil =>
    intro o x hs
    simp only [parse_options_from] at hs
    cases hs
  | cons e es ih =>
    intro o x hs
    simp only [parse_options_from] at hs
    split at hs
    · rename_i o2 h2
      exact ih o2 x hs
    · rename_i y hy
      cases hs
      exact parse_options_switch_status e o _ hy

theorem run_action_status (action : Action) (device : String) (o : Opts) (k : Backend) :
    (run_action action device o k).status ≤ 1 := by
  simp only [run_action]
  split
  · simp
  · split
    · simp
    · split
      · split <;> simp
      · simp

theorem parse_positional_status (args : List String) (x : Exit)
    (h : parse_positional args = .error x) : x.status ≤ 1 := by
  unfold parse_positional at h
  split at h
  · cases h; simp
  · cases h
  · split at h
    · cases h
    · split at h
      · cases h
      · split at h <;> cases h
        simp
  · cases h; simp

/-- C1: the masks `opt_flags_on` and `opt_flags_off` never share a bit.
Every `set_flag` and every `clear_flag` step on a `__u32` flag keeps them
disjoint, so they are disjoint after any sequence of option events that
`parse_options` processes to the end, and no run of `main` ends in the
failed assertion of line 227 (exit status 134); every run ends with
status 0 or 1. -/
theorem C1_masks_stay_disjoint :
    (∀ (flag : Nat) (o : Opts), flag < 2 ^ 32 → o.Disjoint →
      (set_flag flag o).Disjoint ∧ (clear_flag flag o).Disjoint) ∧
    Opts.init.Disjoint ∧
    (∀ (events : List Event) (o : Opts), parse_options events = .ok o →
      o.opt_flags_on &&& o.opt_flags_off = 0) ∧
    (∀ (events : List Event) (args : List String) (k : Backend),
      (main events args k).status ≤ 1 ∧ (main events args k).status ≠ 134) := by
  refine ⟨fun flag o hf h => ⟨set_flag_disjoint flag o hf h, clear_flag_disjoint flag o hf h⟩,
    by decide, fun events o h => parse_options_disjoint events o h, ?_⟩
  intro events args k
  have key : (main events args k).status ≤ 1 := by
    unfold main
    split
    · rename_i x hx
      exact parse_options_from_status events _ x hx
    · rename_i o ho
      have hd : o.opt_flags_on &&& o.opt_flags_off = 0 := parse_options_disjoint events o ho
      rw [if_neg (by simp [hd])]
      split
      · rename_i x hx
        exact parse_positional_status args x hx
      · exact run_action_status _ _ _ _
  exact ⟨key, by omega⟩

/-- Witness for C1 on the events `--rts-on-send=1 --rx-during-tx
--rts-after-send --no-rx-during-tx --delay-after-send=7`. -/
theorem C1_masks_stay_disjoint_witness :
    ((set_flag SER_RS485_RTS_ON_SEND ⟨-1, -1, 4, 2, 0⟩).Disjoint ∧
      (clear_flag SER_RS485_RTS_ON_SEND ⟨-1, -1, 4, 2, 0⟩).Disjoint) ∧
    (⟨-1, 7, 4, 18, 0⟩ : Opts).opt_flags_on &&& (⟨-1, 7, 4, 18, 0⟩ : Opts).opt_flags_off = 0 :=
  ⟨C1_masks_stay_disjoint.1 SER_RS485_RTS_ON_SEND ⟨-1, -1, 4, 2, 0⟩ (by decide) (by decide),
    C1_masks_stay_disjoint.2.2.1
      [.OPT_RTS_ON_SEND (some "1"), .OPT_RX_DURING_TX none, .OPT_RTS_AFTER_SEND none,
        .OPT_NO_RX_DURING_TX, .OPT_DELAY_AFTER_SEND "7"] ⟨-1, 7, 4, 18, 0⟩ (by decide)⟩

/-! ## The last RTS event wins -/

theorem has_flag_two_pow (x n : Nat) : has_flag x (2 ^ n) ↔ x.testBit n = true := by
  unfold has_flag
  rw [Nat.and_two_pow]
  cases x.testBit n <;> simp

theorem has_flag_on_send (x : Nat) : has_flag x SER_RS485_RTS_ON_SEND ↔ x.testBit 1 = true :=
  has_flag_two_pow x 1

theorem has_flag_after_send (x : Nat) :
    has_flag x SER_RS485_RTS_AFTER_SEND ↔ x.testBit 2 = true :=
  has_flag_two_pow x 2

theorem has_flag_enabled (x : Nat) : has_flag x SER_RS485_ENABLED ↔ x.testBit 0 = true :=
  has_flag_two_pow x 0

theorem testBit_set_flag_on (f : Nat) (o : Opts) (i : Nat) :
    (set_flag f o).opt_flags_on.testBit i = (o.opt_flags_on.testBit i || f.testBit i) := by
  simp [set_flag, Nat.testBit_or]

theorem testBit_set_flag_off (f : Nat) (o : Opts) (i : Nat) :
    (set_flag f o).opt_flags_off.testBit i =
      (o.opt_flags_off.testBit i && (decide (i < 32) != f.testBit i)) := by
  simp [set_flag, Nat.testBit_and, testBit_not32]

theorem testBit_clear_flag_on (f : Nat) (o : Opts) (i : Nat) :
    (clear_flag f o).opt_flags_on.testBit i =
      (o.opt_flags_on.testBit i && (decide (i < 32) != f.testBit i)) := by
  simp [clear_flag, Nat.testBit_and, testBit_not32]

theorem testBit_clear_flag_off (f : Nat) (o : Opts) (i : Nat) :
    (clear_flag f o).opt_flags_off.testBit i = (o.opt_flags_off.testBit i || f.testBit i) := by
  simp [clear_flag, Nat.testBit_or]

theorem rts_bits_select_after (o : Opts) :
    (case_OPT_NO_RTS_ON_SEND o).rts_bits = RtsChoice.after_send.bits := by
  have h1 : (4 : Nat).testBit 1 = false := by decide
  have h2 : (4 : Nat).testBit 2 = true := by decide
  have h3 : (2 : Nat).testBit 1 = true := by decide
  have h4 : (2 : Nat).testBit 2 = false := by decide
  simp [Opts.rts_bits, RtsChoice.bits, case_OPT_NO_RTS_ON_SEND, testBit_set_flag_on,
    testBit_set_flag_off, testBit_clear_flag_on, testBit_clear_flag_off,
    SER_RS485_RTS_ON_SEND, SER_RS485_RTS_AFTER_SEND, h1, h2, h3, h4]

theorem rts_bits_select_on (o : Opts) :
    (case_OPT_NO_RTS_AFTER_SEND o).rts_bits = RtsChoice.on_send.bits := by
  have h1 : (4 : Nat).testBit 1 = false := by decide
  have h2 : (4 : Nat).testBit 2 = true := by decide
  have h3 : (2 : Nat).testBit 1 = true := by decide
  have h4 : (2 : Nat).testBit 2 = false := by decide
  simp [Opts.rts_bits, RtsChoice.bits, case_OPT_NO_RTS_AFTER_SEND, testBit_set_flag_on,
    testBit_set_flag_off, testBit_clear_flag_on, testBit_clear_flag_off,
    SER_RS485_RTS_ON_SEND, SER_RS485_RTS_AFTER_SEND, h1, h2, h3, h4]

theorem rts_bits_rx_set (o : Opts) :
    (set_flag SER_RS485_RX_DURING_TX o).rts_bits = o.rts_bits := by
  have h1 : (16 : Nat).testBit 1 = false := by decide
  have h2 : (16 : Nat).testBit 2 = false := by decide
  simp [Opts.rts_bits, testBit_set_flag_on, testBit_set_flag_off, SER_RS485_RX_DURING_TX, h1, h2]

theorem rts_bits_rx_clear (o : Opts) :
    (case_OPT_NO_RX_DURING_TX o).rts_bits = o.rts_bits := by
  have h1 : (16 : Nat).testBit 1 = false := by decide
  have h2 : (16 : Nat).testBit 2 = false := by decide
  simp [Opts.rts_bits, case_OPT_NO_RX_DURING_TX, testBit_clear_flag_on, testBit_clear_flag_off,
    SER_RS485_RX_DURING_TX, h1, h2]

theorem parse_options_switch_rts (e : Event) (o o1 : Opts)
    (hs : parse_options_switch e o = .ok o1) :
    (∀ c, e.rts_choice = some c → o1.rts_bits = c.bits) ∧
    (e.rts_choice = none → o1.rts_bits = o.rts_bits) := by
  have hA := rts_bits_select_after o
  have hB := rts_bits_select_on o
  have hB2 : (clear_flag SER_RS485_RTS_AFTER_SEND (set_flag SER_RS485_RTS_ON_SEND o)).rts_bits
      = RtsChoice.on_send.bits := hB
  have hA2 : (clear_flag SER_RS485_RTS_ON_SEND (set_flag SER_RS485_RTS_AFTER_SEND o)).rts_bits
      = RtsChoice.after_send.bits := hA
  cases e <;> simp only [parse_options_switch] at hs
  case h => cases hs
  case v => cases hs
  case q => cases hs; simp [Event.rts_choice, Opts.rts_bits]
  case OPT_DELAY_BEFORE_SEND a =>
    split at hs
    · cases hs; simp [Event.rts_choice, Opts.rts_bits]
    · cases hs
  case OPT_DELAY_AFTER_SEND a =>
    split at hs
    · cases hs; simp [Event.rts_choice, Opts.rts_bits]
    · cases hs
  case OPT_RTS_ON_SEND a =>
    cases a with
    | none =>
      simp [parse_flag_optarg] at hs
      subst hs
      simp [Event.rts_choice, hB2]
    | some t =>
      by_cases h1 : t = "1"
      · subst h1
        simp [parse_flag_optarg] at hs
        subst hs
        simp [Event.rts_choice, hB2]
      · by_cases h0 : t = "0"
        · subst h0
          simp [parse_flag_optarg] at hs
          subst hs
          simp [Event.rts_choice, hA]
        · simp [parse_flag_optarg, h0, h1] at hs
  case OPT_NO_RTS_ON_SEND =>
    cases hs
    simp [Event.rts_choice, hA]
  case OPT_RTS_AFTER_SEND a =>
    cases a with
    | none =>
      simp [parse_flag_optarg] at hs
      subst hs
      simp [Event.rts_choice, hA2]
    | some t =>
      by_cases h1 : t = "1"
      · subst h1
        simp [parse_flag_optarg] at hs
        subst hs
        simp [Event.rts_choice, hA2]
      · by_cases h0 : t = "0"
        · subst h0
          simp [parse_flag_optarg] at hs
          subst hs
          simp [Event.rts_choice, hB]
        · simp [parse_flag_optarg, h0, h1] at hs
  case OPT_NO_RTS_AFTER_SEND =>
    cases hs
    simp [Event.rts_choice, hB]
  case OPT_RX_DURING_TX a =>
    have hC := rts_bits_rx_set o
    have hD := rts_bits_rx_clear o
    split at hs
    · split at hs <;> cases hs
      · simp [Event.rts_choice, hC]
      · simp [Event.rts_choice, hD]
    · cases hs
  case OPT_NO_RX_DURING_TX =>
    cases hs
    simp [Event.rts_choice, rts_bits_rx_clear]
  case unknown => cases hs

theorem last_rts_choice_cons (e : Event) (es : List Event) :
    last_rts_choice (e :: es) =
      match last_rts_choice es with
      | some c => some c
      | none => e.rts_choice := by
  unfold last_rts_choice
  rw [List.filterMap_cons]
  cases he : e.rts_choice with
  | none =>
    simp only
    cases (List.filterMap Event.rts_choice es).getLast? <;> rfl
  | some c =>
    simp only
    cases hl : List.filterMap Event.rts_choice es with
    | nil => simp
    | cons x xs =>
      rw [List.getLast?_cons_cons]
      cases hx : (x :: xs).getLast? with
      | none => simp at hx
      | some y => rfl

theorem parse_options_from_rts (events : List Event) :
    ∀ (o o1 : Opts), parse_options_from o events = .ok o1 →
      (∀ c, last_rts_choice events = some c → o1.rts_bits = c.bits) ∧
      (last_rts_choice events = none → o1.rts_bits = o.rts_bits) := by
  induction events with
  | nil =>
    intro o o1 hs
    simp only [parse_options_from] at hs
    cases hs
    simp [last_rts_choice]
  | cons e es ih =>
    intro o o1 hs
    simp only [parse_options_from] at hs
    split at hs
    · rename_i o2 h2
      have hsw := parse_options_switch_rts e o o2 h2
      have hrest := ih o2 o1 hs
      rw [last_rts_choice_cons]
      cases hl : last_rts_choice es with
      | some c =>
        simp only
        exact ⟨fun c1 hc1 => hrest.1 c1 (by rw [hl]; exact hc1), fun hn => by cases hn⟩
      | none =>
        simp only
        have hkeep := hrest.2 hl
        exact ⟨fun c1 hc1 => by rw [hkeep]; exact hsw.1 c1 hc1,
          fun hn => by rw [hkeep]; exact hsw.2 hn⟩
    · cases hs

/-- C2: last RTS event wins. When `parse_options` processes a sequence of
events to the end and the last RTS-pair event selects on-send, the result
has `SER_RS485_RTS_ON_SEND` in `opt_flags_on` and `SER_RS485_RTS_AFTER_SEND`
in `opt_flags_off` (and neither bit in the other mask); when it selects
after-send, the reverse. In particular `--rts-on-send=1 --rts-after-send=1`
sets after-send and clears on-send, and the reversed order does the
opposite. -/
theorem C2_last_rts_event_wins :
    (∀ (events : List Event) (o : Opts), parse_options events = .ok o →
      (last_rts_choice events = some .on_send →
        has_flag o.opt_flags_on SER_RS485_RTS_ON_SEND ∧
        has_flag o.opt_flags_off SER_RS485_RTS_AFTER_SEND ∧
        ¬ has_flag o.opt_flags_on SER_RS485_RTS_AFTER_SEND ∧
        ¬ has_flag o.opt_flags_off SER_RS485_RTS_ON_SEND) ∧
      (last_rts_choice events = some .after_send →
        has_flag o.opt_flags_on SER_RS485_RTS_AFTER_SEND ∧
        has_flag o.opt_flags_off SER_RS485_RTS_ON_SEND ∧
        ¬ has_flag o.opt_flags_on SER_RS485_RTS_ON_SEND ∧
        ¬ has_flag o.opt_flags_off SER_RS485_RTS_AFTER_SEND)) ∧
    parse_options [.OPT_RTS_ON_SEND (some "1"), .OPT_RTS_AFTER_SEND (some "1")]
      = .ok ⟨-1, -1, SER_RS485_RTS_AFTER_SEND, SER_RS485_RTS_ON_SEND, 0⟩ ∧
    parse_options [.OPT_RTS_AFTER_SEND (some "1"), .OPT_RTS_ON_SEND (some "1")]
      = .ok ⟨-1, -1, SER_RS485_RTS_ON_SEND, SER_RS485_RTS_AFTER_SEND, 0⟩ := by
  refine ⟨?_, by decide, by decide⟩
  intro events o h
  have key := (parse_options_from_rts events Opts.init o h).1
  constructor
  · intro hl
    have hb := key _ hl
    simp only [Opts.rts_bits, RtsChoice.bits, Prod.mk.injEq] at hb
    simp only [has_flag_on_send, has_flag_after_send]
    simp [hb.1.1, hb.1.2, hb.2.1, hb.2.2]
  · intro hl
    have hb := key _ hl
    simp only [Opts.rts_bits, RtsChoice.bits, Prod.mk.injEq] at hb
    simp only [has_flag_on_send, has_flag_after_send]
    simp [hb.1.1, hb.1.2, hb.2.1, hb.2.2]

/-- Witness for C2: in `--rts-after-send --delay-before-send=3
--no-rts-after-send -q` the last RTS-pair event selects on-send. -/
theorem C2_last_rts_event_wins_witness :
    has_flag (2 : Nat) SER_RS485_RTS_ON_SEND ∧
    has_flag (4 : Nat) SER_RS485_RTS_AFTER_SEND ∧
    ¬ has_flag (2 : Nat) SER_RS485_RTS_AFTER_SEND ∧
    ¬ has_flag (4 : Nat) SER_RS485_RTS_ON_SEND :=
  (C2_last_rts_event_wins.1
    [.OPT_RTS_AFTER_SEND none, .OPT_DELAY_BEFORE_SEND "3", .OPT_NO_RTS_AFTER_SEND, .q]
    ⟨3, -1, 2, 4, 1⟩ (by decide)).1 (by decide)

/-! ## Negation coupling -/

theorem parse_options_from_append_congr (e1 e2 : Event)
    (h : ∀ o, parse_options_switch e1 o = parse_options_switch e2 o) (pre : List Event) :
    ∀ o, parse_options_from o (pre ++ [e1]) = parse_options_from o (pre ++ [e2]) := by
  induction pre with
  | nil =>
    intro o
    simp only [List.nil_append, parse_options_from, h o]
  | cons e es ih =>
    intro o
    simp only [List.cons_append, parse_options_from]
    split
    · exact ih _
    · rfl

/-- C3: negation coupling. After any prefix of option events,
`--rts-on-send=0` leaves `parse_options` with exactly the same result (both
masks, both delays, or the same exit) as `--rts-after-send=1`, and
`--rts-after-send=0` with the same result as `--rts-on-send=1`. -/
theorem C3_negation_coupling (pre : List Event) :
    parse_options (pre ++ [.OPT_RTS_ON_SEND (some "0")])
      = parse_options (pre ++ [.OPT_RTS_AFTER_SEND (some "1")]) ∧
    parse_options (pre ++ [.OPT_RTS_AFTER_SEND (some "0")])
      = parse_options (pre ++ [.OPT_RTS_ON_SEND (some "1")]) := by
  constructor
  · apply parse_options_from_append_congr
    intro o
    simp [parse_options_switch, parse_flag_optarg, case_OPT_NO_RTS_ON_SEND]
  · apply parse_options_from_append_congr
    intro o
    simp [parse_options_switch, parse_flag_optarg, case_OPT_NO_RTS_AFTER_SEND]

/-! ## Action `on` -/

theorem testBit_rts_mask (i : Nat) :
    (SER_RS485_RTS_ON_SEND ||| SER_RS485_RTS_AFTER_SEND).testBit i = (decide (i = 1) || decide (i = 2)) := by
  have h1 : SER_RS485_RTS_ON_SEND = 2 ^ 1 := rfl
  have h2 : SER_RS485_RTS_AFTER_SEND = 2 ^ 2 := rfl
  rw [h1, h2, Nat.testBit_or, Nat.testBit_two_pow, Nat.testBit_two_pow]
  simp [eq_comm]

theorem and_rts_mask_eq_zero_iff (x : Nat) :
    x &&& (SER_RS485_RTS_ON_SEND ||| SER_RS485_RTS_AFTER_SEND) = 0 ↔
      x.testBit 1 = false ∧ x.testBit 2 = false := by
  rw [and_eq_zero_iff]
  constructor
  · intro h
    constructor
    · cases hx : x.testBit 1
      · rfl
      · have := h 1 hx
        rw [testBit_rts_mask] at this
        simp at this
    · cases hx : x.testBit 2
      · rfl
      · have := h 2 hx
        rw [testBit_rts_mask] at this
        simp at this
  · intro h i hi
    rw [testBit_rts_mask]
    by_cases h1 : i = 1
    · subst h1; rw [h.1] at hi; cases hi
    · by_cases h2 : i = 2
      · subst h2; rw [h.2] at hi; cases hi
      · simp [h1, h2]

theorem action_on_eq (o : Opts) (conf : serial_rs485) :
    (action_on o conf).2 =
      decide ((((conf.flags &&& not32 o.opt_flags_off) ||| o.opt_flags_on) ||| SER_RS485_ENABLED)
        &&& (SER_RS485_RTS_ON_SEND ||| SER_RS485_RTS_AFTER_SEND) = 0) ∧
    (action_on o conf).1.flags =
      (if (action_on o conf).2 = true then
        (((conf.flags &&& not32 o.opt_flags_off) ||| o.opt_flags_on) ||| SER_RS485_ENABLED)
          ||| SER_RS485_RTS_ON_SEND
      else ((conf.flags &&& not32 o.opt_flags_off) ||| o.opt_flags_on) ||| SER_RS485_ENABLED) ∧
    (action_on o conf).1.padding = conf.padding ∧
    (action_on o conf).1.delay_rts_before_send =
      (if o.opt_delay_before_send ≥ 0 then o.opt_delay_before_send.toNat
        else conf.delay_rts_before_send) ∧
    (action_on o conf).1.delay_rts_after_send =
      (if o.opt_delay_after_send ≥ 0 then o.opt_delay_after_send.toNat
        else conf.delay_rts_after_send) := by
  by_cases hb : o.opt_delay_before_send ≥ 0 <;> by_cases ha : o.opt_delay_after_send ≥ 0 <;>
    by_cases hh : (((conf.flags &&& not32 o.opt_flags_off) ||| o.opt_flags_on)
        ||| SER_RS485_ENABLED) &&& (SER_RS485_RTS_ON_SEND ||| SER_RS485_RTS_AFTER_SEND) = 0 <;>
    simp [action_on, hb, ha, hh]

theorem testBit_enabled (i : Nat) : SER_RS485_ENABLED.testBit i = decide (i = 0) := by
  have h : SER_RS485_ENABLED = 2 ^ 0 := rfl
  rw [h, Nat.testBit_two_pow]
  simp [eq_comm]

theorem testBit_on_send (i : Nat) : SER_RS485_RTS_ON_SEND.testBit i = decide (i = 1) := by
  have h : SER_RS485_RTS_ON_SEND = 2 ^ 1 := rfl
  rw [h, Nat.testBit_two_pow]
  simp [eq_comm]

theorem testBit_on_word (c m_on m_off i : Nat) :
    (((c &&& not32 m_off) ||| m_on) ||| SER_RS485_ENABLED).testBit i =
      ((c.testBit i && (decide (i < 32) != m_off.testBit i)) || m_on.testBit i
        || decide (i = 0)) := by
  rw [Nat.testBit_or, Nat.testBit_or, Nat.testBit_and, testBit_not32, testBit_enabled]

theorem action_on_hack_iff (o : Opts) (conf : serial_rs485) :
    (action_on o conf).2 = true ↔
      (conf.flags.testBit 1 && !o.opt_flags_off.testBit 1) = false ∧
      o.opt_flags_on.testBit 1 = false ∧
      (conf.flags.testBit 2 && !o.opt_flags_off.testBit 2) = false ∧
      o.opt_flags_on.testBit 2 = false := by
  rw [(action_on_eq o conf).1, decide_eq_true_iff, and_rts_mask_eq_zero_iff,
    testBit_on_word, testBit_on_word]
  simp
  tauto

theorem action_on_testBit (o : Opts) (conf : serial_rs485) (i : Nat) :
    (action_on o conf).1.flags.testBit i =
      ((conf.flags.testBit i && (decide (i < 32) != o.opt_flags_off.testBit i))
        || o.opt_flags_on.testBit i || decide (i = 0)
        || ((action_on o conf).2 && decide (i = 1))) := by
  rw [(action_on_eq o conf).2.1]
  cases hh : (action_on o conf).2
  · simp [Nat.testBit_or, Nat.testBit_and, testBit_not32, testBit_enabled]
  · simp [Nat.testBit_or, Nat.testBit_and, testBit_not32, testBit_enabled, testBit_on_send]

theorem parse_options_rts_bits (events : List Event) (o : Opts)
    (h : parse_options events = .ok o) :
    o.rts_bits = ((false, false), (false, false)) ∨
      o.rts_bits = RtsChoice.on_send.bits ∨ o.rts_bits = RtsChoice.after_send.bits := by
  have key := parse_options_from_rts events Opts.init o h
  cases hl : last_rts_choice events with
  | none =>
    left
    rw [key.2 hl]
    decide
  | some c =>
    cases c
    · right; left; exact key.1 _ hl
    · right; right; exact key.1 _ hl

/-- C4: workaround triggering. For every record read from the kernel and
every result of `parse_options`, the `on` branch sets `rts_on_send_hack`
exactly when neither mask holds an RTS bit and the record holds neither
`SER_RS485_RTS_ON_SEND` nor `SER_RS485_RTS_AFTER_SEND`; and when it does,
the record to be written has `SER_RS485_RTS_ON_SEND` set and
`SER_RS485_RTS_AFTER_SEND` clear. -/
theorem C4_workaround_exactly_when_no_rts_bit (events : List Event) (o : Opts)
    (conf : serial_rs485) (h : parse_options events = .ok o) :
    ((action_on o conf).2 = true ↔
      (¬ has_flag o.opt_flags_on SER_RS485_RTS_ON_SEND ∧
        ¬ has_flag o.opt_flags_on SER_RS485_RTS_AFTER_SEND ∧
        ¬ has_flag o.opt_flags_off SER_RS485_RTS_ON_SEND ∧
        ¬ has_flag o.opt_flags_off SER_RS485_RTS_AFTER_SEND) ∧
      ¬ has_flag conf.flags SER_RS485_RTS_ON_SEND ∧
      ¬ has_flag conf.flags SER_RS485_RTS_AFTER_SEND) ∧
    ((action_on o conf).2 = true →
      has_flag (action_on o conf).1.flags SER_RS485_RTS_ON_SEND ∧
      ¬ has_flag (action_on o conf).1.flags SER_RS485_RTS_AFTER_SEND) := by
  have hbits := parse_options_rts_bits events o h
  simp only [Opts.rts_bits, RtsChoice.bits, Prod.mk.injEq] at hbits
  have hk := action_on_hack_iff o conf
  simp only [has_flag_on_send, has_flag_after_send, action_on_testBit]
  rcases hbits with ⟨⟨a, b⟩, c, d⟩ | ⟨⟨a, b⟩, c, d⟩ | ⟨⟨a, b⟩, c, d⟩ <;>
    cases h1 : conf.flags.testBit 1 <;> cases h2 : conf.flags.testBit 2 <;>
    cases hh : (action_on o conf).2 <;>
    simp [a, b, c, d, h1, h2, hh] at hk ⊢

/-- Witness for C4: `on -q` on the all-zero record left by `off`. -/
theorem C4_workaround_exactly_when_no_rts_bit_witness :
    ((action_on ⟨-1, -1, 0, 0, 1⟩ zero_conf).2 = true ↔
      (¬ has_flag (0 : Nat) SER_RS485_RTS_ON_SEND ∧
        ¬ has_flag (0 : Nat) SER_RS485_RTS_AFTER_SEND ∧
        ¬ has_flag (0 : Nat) SER_RS485_RTS_ON_SEND ∧
        ¬ has_flag (0 : Nat) SER_RS485_RTS_AFTER_SEND) ∧
      ¬ has_flag zero_conf.flags SER_RS485_RTS_ON_SEND ∧
      ¬ has_flag zero_conf.flags SER_RS485_RTS_AFTER_SEND) ∧
    ((action_on ⟨-1, -1, 0, 0, 1⟩ zero_conf).2 = true →
      has_flag (action_on ⟨-1, -1, 0, 0, 1⟩ zero_conf).1.flags SER_RS485_RTS_ON_SEND ∧
      ¬ has_flag (action_on ⟨-1, -1, 0, 0, 1⟩ zero_conf).1.flags SER_RS485_RTS_AFTER_SEND) :=
  C4_workaround_exactly_when_no_rts_bit [.q] ⟨-1, -1, 0, 0, 1⟩ zero_conf (by decide)

/-- C5: workaround non-triggering. When the record read from the kernel has
`SER_RS485_RTS_AFTER_SEND` set and neither mask holds an RTS bit, the `on`
branch leaves `rts_on_send_hack` false, the record to be written still has
`SER_RS485_RTS_AFTER_SEND` set, and its `SER_RS485_RTS_ON_SEND` bit is the
one of the record read. -/
theorem C5_no_workaround_when_after_send_present (o : Opts) (conf : serial_rs485)
    (hc : has_flag conf.flags SER_RS485_RTS_AFTER_SEND)
    (h1 : ¬ has_flag o.opt_flags_on SER_RS485_RTS_ON_SEND)
    (h2 : ¬ has_flag o.opt_flags_on SER_RS485_RTS_AFTER_SEND)
    (h3 : ¬ has_flag o.opt_flags_off SER_RS485_RTS_ON_SEND)
    (h4 : ¬ has_flag o.opt_flags_off SER_RS485_RTS_AFTER_SEND) :
    (action_on o conf).2 = false ∧
    has_flag (action_on o conf).1.flags SER_RS485_RTS_AFTER_SEND ∧
    (has_flag (action_on o conf).1.flags SER_RS485_RTS_ON_SEND ↔
      has_flag conf.flags SER_RS485_RTS_ON_SEND) := by
  have hk := action_on_hack_iff o conf
  simp only [has_flag_on_send, has_flag_after_send, Bool.not_eq_true] at hc h1 h2 h3 h4
  simp only [has_flag_on_send, has_flag_after_send, action_on_testBit]
  cases hh : (action_on o conf).2 <;> simp [hc, h1, h2, h3, h4, hh] at hk ⊢

/-- Witness for C5: `on --rx-during-tx` on a record with both RTS bits and
the enable bit set. -/
theorem C5_no_workaround_when_after_send_present_witness :
    (action_on ⟨-1, -1, 16, 0, 0⟩ ⟨7, 0, 0, [0, 0, 0, 0, 0]⟩).2 = false ∧
    has_flag (action_on ⟨-1, -1, 16, 0, 0⟩ ⟨7, 0, 0, [0, 0, 0, 0, 0]⟩).1.flags
      SER_RS485_RTS_AFTER_SEND ∧
    (has_flag (action_on ⟨-1, -1, 16, 0, 0⟩ ⟨7, 0, 0, [0, 0, 0, 0, 0]⟩).1.flags
        SER_RS485_RTS_ON_SEND ↔
      has_flag (⟨7, 0, 0, [0, 0, 0, 0, 0]⟩ : serial_rs485).flags SER_RS485_RTS_ON_SEND) :=
  C5_no_workaround_when_after_send_present ⟨-1, -1, 16, 0, 0⟩ ⟨7, 0, 0, [0, 0, 0, 0, 0]⟩
    (by decide) (by decide) (by decide) (by decide) (by decide)

/-- C8: action `on` preserves what was not asked for. The record to be
written keeps `delay_rts_before_send` when `opt_delay_before_send` is
negative (absent) and takes exactly its value otherwise, likewise for
`delay_rts_after_send`; it keeps every reserved word; and it keeps every
one of the 32 flag bits that is in neither mask, except bit 0
(`SER_RS485_ENABLED`, always set) and bit 1 (`SER_RS485_RTS_ON_SEND`) when
the workaround is applied, in which case that bit is set. -/
theorem C8_on_preserves_unrequested (o : Opts) (conf : serial_rs485) :
    (o.opt_delay_before_send < 0 →
      (action_on o conf).1.delay_rts_before_send = conf.delay_rts_before_send) ∧
    (0 ≤ o.opt_delay_before_send →
      ((action_on o conf).1.delay_rts_before_send : Int) = o.opt_delay_before_send) ∧
    (o.opt_delay_after_send < 0 →
      (action_on o conf).1.delay_rts_after_send = conf.delay_rts_after_send) ∧
    (0 ≤ o.opt_delay_after_send →
      ((action_on o conf).1.delay_rts_after_send : Int) = o.opt_delay_after_send) ∧
    (action_on o conf).1.padding = conf.padding ∧
    (∀ i, i < 32 → o.opt_flags_on.testBit i = false → o.opt_flags_off.testBit i = false →
      i ≠ 0 → (i = 1 → (action_on o conf).2 = false) →
      (action_on o conf).1.flags.testBit i = conf.flags.testBit i) ∧
    has_flag (action_on o conf).1.flags SER_RS485_ENABLED ∧
    ((action_on o conf).2 = true →
      has_flag (action_on o conf).1.flags SER_RS485_RTS_ON_SEND) := by
  obtain ⟨-, -, hp, hb, ha⟩ := action_on_eq o conf
  refine ⟨?_, ?_, ?_, ?_, hp, ?_, ?_, ?_⟩
  · intro h
    rw [hb, if_neg (by omega)]
  · intro h
    rw [hb, if_pos h]
    exact Int.toNat_of_nonneg h
  · intro h
    rw [ha, if_neg (by omega)]
  · intro h
    rw [ha, if_pos h]
    exact Int.toNat_of_nonneg h
  · intro i hi hon hoff h0 h1
    rw [action_on_testBit]
    by_cases hi1 : i = 1
    · simp [hi, hon, hoff, h0, h1 hi1]
    · simp [hi, hon, hoff, h0, hi1]
  · rw [has_flag_enabled, action_on_testBit]
    simp
  · intro hh
    rw [has_flag_on_send, action_on_testBit]
    simp [hh]

/-- Witness for C8: `on --delay-before-send=7 --rx-during-tx` on a record
with after-send set, delays 1 and 2 and non-zero reserved words. -/
theorem C8_on_preserves_unrequested_witness :
    ((action_on ⟨7, -1, 16, 0, 0⟩ ⟨4, 1, 2, [1, 2, 3, 4, 5]⟩).1.delay_rts_before_send : Int) = 7 ∧
    (action_on ⟨7, -1, 16, 0, 0⟩ ⟨4, 1, 2, [1, 2, 3, 4, 5]⟩).1.delay_rts_after_send = 2 ∧
    (action_on ⟨7, -1, 16, 0, 0⟩ ⟨4, 1, 2, [1, 2, 3, 4, 5]⟩).1.flags.testBit 2 =
      (4 : Nat).testBit 2 ∧
    (action_on ⟨7, -1, 16, 0, 0⟩ ⟨4, 1, 2, [1, 2, 3, 4, 5]⟩).1.flags.testBit 1 =
      (4 : Nat).testBit 1 :=
  ⟨(C8_on_preserves_unrequested ⟨7, -1, 16, 0, 0⟩ ⟨4, 1, 2, [1, 2, 3, 4, 5]⟩).2.1 (by decide),
   (C8_on_preserves_unrequested ⟨7, -1, 16, 0, 0⟩ ⟨4, 1, 2, [1, 2, 3, 4, 5]⟩).2.2.1 (by decide),
   (C8_on_preserves_unrequested ⟨7, -1, 16, 0, 0⟩ ⟨4, 1, 2, [1, 2, 3, 4, 5]⟩).2.2.2.2.2.1 2
     (by decide) (by decide) (by decide) (by decide) (by decide),
   (C8_on_preserves_unrequested ⟨7, -1, 16, 0, 0⟩ ⟨4, 1, 2, [1, 2, 3, 4, 5]⟩).2.2.2.2.2.1 1
     (by decide) (by decide) (by decide) (by decide) (fun _ => by decide)⟩

/-! ## The sanity check -/

theorem run_action_stderr (action : Action) (device : String) (o : Opts) (k : Backend)
    (conf0 conf : serial_rs485) (hact : action ≠ .ACTION_SHOW)
    (hopen : k.open_ok device = true) (hget : k.get = some conf0)
    (hset : k.set (apply_action action o conf0).1 = some conf) :
    (run_action action device o k).stderr =
      sanity_check (apply_action action o conf0).1 conf (apply_action action o conf0).2 := by
  simp [run_action, hopen, hget, hact, hset]

theorem same_except_rts_on_send_refl (a : serial_rs485) : same_except_rts_on_send a a :=
  ⟨rfl, rfl, rfl, fun _ _ _ => rfl⟩

theorem sanity_check_not_same (wanted conf : serial_rs485) (hack : Bool)
    (h : ¬ same_except_rts_on_send conf wanted) :
    sanity_check wanted conf hack = [mismatch_warning] := by
  have hne : wanted ≠ conf := by
    intro he
    subst he
    exact h (same_except_rts_on_send_refl _)
  unfold sanity_check
  cases hack
  · simp [memcmp, hne, mismatch_warning]
  · have hw : ({ wanted with flags := wanted.flags &&& not32 SER_RS485_RTS_ON_SEND }
        : serial_rs485) ≠ conf := by
      intro he
      apply h
      subst he
      refine ⟨rfl, rfl, rfl, ?_⟩
      intro i hi hi1
      simp [Nat.testBit_and, testBit_not32, testBit_on_send, hi, hi1]
    simp [memcmp, hne, hw, mismatch_warning]

theorem sanity_check_no_hack (wanted conf : serial_rs485) (h : conf ≠ wanted) :
    sanity_check wanted conf false = [mismatch_warning] := by
  have hne : wanted ≠ conf := fun he => h he.symm
  simp [sanity_check, memcmp, hne, mismatch_warning]

theorem sanity_check_hack_same (wanted conf : serial_rs485)
    (hbit : wanted.flags.testBit 1 = true) (hw : wanted.flags < 2 ^ 32)
    (hc : conf.flags < 2 ^ 32) (h : same_except_rts_on_send conf wanted) :
    sanity_check wanted conf true = [] := by
  obtain ⟨hb, ha, hp, hf⟩ := h
  unfold sanity_check
  by_cases heq : wanted = conf
  · simp [memcmp, heq]
  · have hbit1 : conf.flags.testBit 1 = false := by
      cases hc1 : conf.flags.testBit 1
      · rfl
      · exfalso
        apply heq
        have hfl : wanted.flags = conf.flags := by
          apply Nat.eq_of_testBit_eq
          intro i
          by_cases hi : i < 32
          · by_cases hi1 : i = 1
            · subst hi1; rw [hbit, hc1]
            · exact (hf i hi hi1).symm
          · rw [testBit_high_false hw (Nat.le_of_not_lt hi),
              testBit_high_false hc (Nat.le_of_not_lt hi)]
        cases wanted
        cases conf
        simp_all
    have hfl : wanted.flags &&& not32 SER_RS485_RTS_ON_SEND = conf.flags := by
      apply Nat.eq_of_testBit_eq
      intro i
      rw [Nat.testBit_and, testBit_not32, testBit_on_send]
      by_cases hi : i < 32
      · by_cases hi1 : i = 1
        · subst hi1; simp [hbit1]
        · simp [hi, hi1, hf i hi hi1]
      · rw [testBit_high_false hw (Nat.le_of_not_lt hi),
          testBit_high_false hc (Nat.le_of_not_lt hi)]
        simp
    have hweq : ({ wanted with flags := wanted.flags &&& not32 SER_RS485_RTS_ON_SEND }
        : serial_rs485) = conf := by
      cases wanted
      cases conf
      simp_all
    simp [memcmp, heq, hweq]

theorem action_on_flags_lt (o : Opts) (conf : serial_rs485) (ho : o.opt_flags_on < 2 ^ 32)
    (hc : conf.flags < 2 ^ 32) : (action_on o conf).1.flags < 2 ^ 32 := by
  apply Nat.lt_pow_two_of_testBit
  intro i hi
  rw [action_on_testBit, testBit_high_false ho hi, testBit_high_false hc hi]
  have h1 : ¬ i < 32 := by omega
  have h2 : i ≠ 0 := by omega
  have h3 : i ≠ 1 := by omega
  simp [h1, h2, h3]

/-- C6: the check after `TIOCSRS485` suppresses only the difference the
workaround itself causes. For an `on` or `off` run on well-formed records
(`opt_flags_on` a `__u32`), with `wanted` the record passed to the kernel
and `conf` the record the kernel wrote back: (a) if the workaround was
applied and `conf` equals `wanted` in everything except the
`SER_RS485_RTS_ON_SEND` bit, nothing is written to standard error; (b) if
`conf` differs from `wanted` anywhere else, exactly the one warning is
written, with or without the workaround; (c) if `conf` differs from
`wanted` only in that bit and the workaround was not applied, exactly the
one warning is written. -/
theorem C6_check_suppresses_only_own_difference (action : Action) (device : String)
    (o : Opts) (k : Backend) (conf0 conf : serial_rs485)
    (hact : action ≠ .ACTION_SHOW) (hopen : k.open_ok device = true)
    (hget : k.get = some conf0) (hset : k.set (apply_action action o conf0).1 = some conf)
    (ho : o.opt_flags_on < 2 ^ 32) (hc0 : conf0.WF) (hc : conf.WF) :
    ((apply_action action o conf0).2 = true →
      same_except_rts_on_send conf (apply_action action o conf0).1 →
      (run_action action device o k).stderr = []) ∧
    (¬ same_except_rts_on_send conf (apply_action action o conf0).1 →
      (run_action action device o k).stderr = [mismatch_warning]) ∧
    (same_except_rts_on_send conf (apply_action action o conf0).1 →
      conf ≠ (apply_action action o conf0).1 →
      (apply_action action o conf0).2 = false →
      (run_action action device o k).stderr = [mismatch_warning]) := by
  rw [run_action_stderr action device o k conf0 conf hact hopen hget hset]
  refine ⟨?_, ?_, ?_⟩
  · intro hh hs
    rw [hh]
    cases action with
    | ACTION_ON =>
      simp only [apply_action] at hh hs ⊢
      apply sanity_check_hack_same _ _ _ (action_on_flags_lt o conf0 ho hc0.1) hc.1 hs
      rw [action_on_testBit, hh]
      simp
    | ACTION_OFF => simp [apply_action] at hh
    | ACTION_SHOW => exact absurd rfl hact
  · intro hs
    exact sanity_check_not_same _ _ _ hs
  · intro _ hne hh
    rw [hh]
    exact sanity_check_no_hack _ _ hne

/-- Witness for C6: `on` with no option on the all-zero record applies the
workaround; the kernel drops only `SER_RS485_RTS_ON_SEND`, and no warning
is written. -/
theorem C6_check_suppresses_only_own_difference_witness :
    (run_action .ACTION_ON "/dev/ttyS1" Opts.init backend_without_rts).stderr = [] :=
  (C6_check_suppresses_only_own_difference .ACTION_ON "/dev/ttyS1" Opts.init
    backend_without_rts zero_conf ⟨1, 0, 0, [0, 0, 0, 0, 0]⟩
    (by decide) (by decide) (by decide) (by decide) (by decide) (by decide) (by decide)).1
    (by decide) (by decide)

/-! ## Actions `off` and `show`, and `main` as a whole -/

theorem main_eq_run_action (events : List Event) (args : List String) (k : Backend)
    (o : Opts) (action : Action) (device : String)
    (ho : parse_options events = .ok o) (ha : parse_positional args = .ok (action, device)) :
    main events args k = run_action action device o k := by
  have hd : o.opt_flags_on &&& o.opt_flags_off = 0 := parse_options_disjoint events o ho
  simp [main, ho, hd, ha]

/-- C7: action `off` writes the all-zero record. Whatever record the kernel
reported and whatever the option variables hold, the record of the `off`
branch is `zero_conf`, it is the one record passed to `TIOCSRS485`, and in
it `flags` is 0 (so `SER_RS485_ENABLED` is clear), both delays are 0 and
each of the five reserved words is 0. The same holds for a whole run of
`main` with the positional arguments `off <device>`. -/
theorem C7_off_writes_zero_record (device : String) (o : Opts) (k : Backend)
    (conf0 : serial_rs485) (hopen : k.open_ok device = true) (hget : k.get = some conf0) :
    (apply_action .ACTION_OFF o conf0).1 = zero_conf ∧
    (run_action .ACTION_OFF device o k).sets = [zero_conf] ∧
    (∀ events, parse_options events = .ok o →
      (main events ["off", device] k).sets = [zero_conf]) ∧
    zero_conf.flags = 0 ∧ ¬ has_flag zero_conf.flags SER_RS485_ENABLED ∧
    zero_conf.delay_rts_before_send = 0 ∧ zero_conf.delay_rts_after_send = 0 ∧
    zero_conf.padding.length = 5 ∧ (∀ w ∈ zero_conf.padding, w = 0) := by
  have hrun : (run_action .ACTION_OFF device o k).sets = [zero_conf] := by
    simp only [run_action, hopen, hget, apply_action]
    cases k.set zero_conf <;> simp
  refine ⟨rfl, hrun, ?_, rfl, by decide, rfl, rfl, rfl, by decide⟩
  intro events ho
  rw [main_eq_run_action events ["off", device] k o .ACTION_OFF device ho (by simp [parse_positional])]
  exact hrun

/-- Witness for C7: `off --rts-on-send --delay-before-send=9` on a kernel
that reports a record with every setting in use. -/
theorem C7_off_writes_zero_record_witness :
    (run_action .ACTION_OFF "/dev/ttyS1" ⟨9, -1, 2, 4, 0⟩ backend_echo).sets = [zero_conf] :=
  (C7_off_writes_zero_record "/dev/ttyS1" ⟨9, -1, 2, 4, 0⟩ backend_echo
    ⟨23, 5, 9, [1, 2, 3, 4, 5]⟩ (by decide) (by decide)).2.1

/-- C10: action `show` only reads. For every device, kernel and option
state, a `show` run passes nothing to `TIOCSRS485`, and the run does not
depend on the option state at all (masks, delays and `-q` have no
effect); when the device opens and `TIOCGRS485` returns a record, the run
ends with status 0, writes nothing to standard error and prints exactly
`show_rs485` of that record. The same holds for a whole run of `main` with
the positional arguments `<device>` or `show <device>`. -/
theorem C10_show_never_sets (device : String) (o : Opts) (k : Backend) :
    (run_action .ACTION_SHOW device o k).sets = [] ∧
    (∀ o1 : Opts, run_action .ACTION_SHOW device o1 k = run_action .ACTION_SHOW device o k) ∧
    (∀ conf0, k.open_ok device = true → k.get = some conf0 →
      run_action .ACTION_SHOW device o k
        = ⟨0, [], show_rs485 device conf0, [device], 1, []⟩) ∧
    (∀ events, parse_options events = .ok o →
      main events [device] k = run_action .ACTION_SHOW device o k ∧
      main events ["show", device] k = run_action .ACTION_SHOW device o k) := by
  refine ⟨?_, ?_, ?_, ?_⟩
  · simp only [run_action]
    split
    · rfl
    · split <;> simp
  · intro o1
    simp only [run_action]
    split
    · rfl
    · split <;> simp [apply_action]
  · intro conf0 hopen hget
    simp [run_action, hopen, hget, apply_action]
  · intro events ho
    exact ⟨main_eq_run_action events [device] k o .ACTION_SHOW device ho
        (by simp [parse_positional]),
      main_eq_run_action events ["show", device] k o .ACTION_SHOW device ho
        (by simp [parse_positional])⟩

/-- Witness for C10: `--rts-on-send --delay-after-send=50 -q <device>`
prints the record the kernel reported and sets nothing. -/
theorem C10_show_never_sets_witness :
    main [.OPT_RTS_ON_SEND none, .OPT_DELAY_AFTER_SEND "50", .q] ["/dev/ttyS1"] backend_echo
      = ⟨0, [], show_rs485 "/dev/ttyS1" ⟨23, 5, 9, [1, 2, 3, 4, 5]⟩, ["/dev/ttyS1"], 1, []⟩ :=
  ((C10_show_never_sets "/dev/ttyS1" ⟨-1, 50, 2, 4, 1⟩ backend_echo).2.2.2
      [.OPT_RTS_ON_SEND none, .OPT_DELAY_AFTER_SEND "50", .q] (by decide)).1.trans
    ((C10_show_never_sets "/dev/ttyS1" ⟨-1, 50, 2, 4, 1⟩ backend_echo).2.2.1
      ⟨23, 5, 9, [1, 2, 3, 4, 5]⟩ (by decide) (by decide))

/-! ## `parse_delay` -/

/-- C9: `parse_delay` lets a value far outside `[0, 100]` through. With a
64-bit `long`, `strtol` reads all ten characters of `4294967296` and
returns 2^32 unclamped; storing it in `int delay` leaves 0, which passes
the range test, so `parse_delay` returns 0 where the diagnostic of line 105
promises a rejection. Likewise `4294967396` is taken as 100 and
`-4294967196` as 100. The neighbouring values behave as required: `-1`,
`101`, `abc` and `2147483648` are rejected with exit status 1, and `0` and
`100` are accepted. -/
theorem C9_parse_delay_accepts_wrapped_long :
    strtol "4294967296".toList = (4294967296, 10) ∧
    parse_delay "4294967296" 0 = .ok 0 ∧
    parse_delay "4294967396" 1 = .ok 100 ∧
    parse_delay "-4294967196" 1 = .ok 100 ∧
    parse_options [.OPT_DELAY_BEFORE_SEND "4294967296"] = .ok ⟨0, -1, 0, 0, 0⟩ ∧
    parse_delay "0" 0 = .ok 0 ∧
    parse_delay "100" 0 = .ok 100 ∧
    (∀ a ∈ ["-1", "101", "abc", "2147483648"], ∀ idx ∈ [0, 1],
      parse_delay a idx = .error ⟨1, "invalid argument to --"
        ++ long_options_name idx ++ " (must be integer in [0, 100])"⟩) := by
  refine ⟨by decide, by decide, by decide, by decide, by decide, by decide, by decide, ?_⟩
  decide

/-! ## Forms of the boolean options -/

/-- C11: boolean argument forms. After any prefix of events, each of
`--rts-on-send`, `--rts-after-send` and `--rx-during-tx` given bare leaves
`parse_options` with the same result as the same option with `=1`, and its
`--no-` variant with the same result as `=0`. `parse_flag_optarg` returns 1
for a null `optarg` and for `"1"`, 0 for `"0"`, and ends in `errx(1, ...)`
for every other string. -/
theorem C11_boolean_argument_forms :
    (∀ pre : List Event,
      parse_options (pre ++ [.OPT_RTS_ON_SEND none])
        = parse_options (pre ++ [.OPT_RTS_ON_SEND (some "1")]) ∧
      parse_options (pre ++ [.OPT_RTS_AFTER_SEND none])
        = parse_options (pre ++ [.OPT_RTS_AFTER_SEND (some "1")]) ∧
      parse_options (pre ++ [.OPT_RX_DURING_TX none])
        = parse_options (pre ++ [.OPT_RX_DURING_TX (some "1")]) ∧
      parse_options (pre ++ [.OPT_NO_RTS_ON_SEND])
        = parse_options (pre ++ [.OPT_RTS_ON_SEND (some "0")]) ∧
      parse_options (pre ++ [.OPT_NO_RTS_AFTER_SEND])
        = parse_options (pre ++ [.OPT_RTS_AFTER_SEND (some "0")]) ∧
      parse_options (pre ++ [.OPT_NO_RX_DURING_TX])
        = parse_options (pre ++ [.OPT_RX_DURING_TX (some "0")])) ∧
    (∀ idx : Nat, parse_flag_optarg none idx = .ok 1 ∧
      parse_flag_optarg (some "1") idx = .ok 1 ∧
      parse_flag_optarg (some "0") idx = .ok 0) ∧
    (∀ (a : String) (idx : Nat), a ≠ "0" → a ≠ "1" →
      parse_flag_optarg (some a) idx
        = .error ⟨1, "invalid argument to --" ++ long_options_name idx
            ++ " (must be 0 or 1)"⟩) := by
  refine ⟨fun pre => ⟨?_, ?_, ?_, ?_, ?_, ?_⟩, fun idx => ⟨rfl, ?_, ?_⟩, ?_⟩
  · apply parse_options_from_append_congr
    intro o
    simp [parse_options_switch, parse_flag_optarg]
  · apply parse_options_from_append_congr
    intro o
    simp [parse_options_switch, parse_flag_optarg]
  · apply parse_options_from_append_congr
    intro o
    simp [parse_options_switch, parse_flag_optarg]
  · apply parse_options_from_append_congr
    intro o
    simp [parse_options_switch, parse_flag_optarg]
  · apply parse_options_from_append_congr
    intro o
    simp [parse_options_switch, parse_flag_optarg]
  · apply parse_options_from_append_congr
    intro o
    simp [parse_options_switch, parse_flag_optarg]
  · simp [parse_flag_optarg]
  · simp [parse_flag_optarg]
  · intro a idx h0 h1
    simp [parse_flag_optarg, h0, h1]

/-- Witness for C11: `--rx-during-tx=yes` is rejected. -/
theorem C11_boolean_argument_forms_witness :
    parse_flag_optarg (some "yes") 6
      = .error ⟨1, "invalid argument to --" ++ long_options_name 6 ++ " (must be 0 or 1)"⟩ :=
  C11_boolean_argument_forms.2.2 "yes" 6 (by decide) (by decide)

/-! ## The report -/

theorem flag_bit_eq (flags bit : Nat) :
    toString (flag_bit flags bit) = if has_flag flags bit then "1" else "0" := by
  unfold flag_bit has_flag
  split <;> rfl

theorem printf_d_small (x : Nat) (h : x < 2 ^ 31) : printf_d x = toString x := by
  have h1 : x < 2147483648 := by norm_num at h; exact h
  simp only [printf_d, if_pos h1]

theorem printf_d_large (x : Nat) (h : 2 ^ 31 ≤ x) :
    printf_d x = "-" ++ toString (2 ^ 32 - x) := by
  have h1 : ¬ x < 2147483648 := by norm_num at h; omega
  simp only [printf_d, if_neg h1]
  norm_num

theorem show_rs485_off (dev : String) (conf : serial_rs485)
    (h : ¬ has_flag conf.flags SER_RS485_ENABLED) :
    show_rs485 dev conf = [dev ++ ": rs485 off"] := by
  unfold has_flag at h
  simp only [ne_eq, not_not] at h
  simp only [show_rs485, h, if_true, ne_eq, not_true_eq_false, if_false]
  rw [String.append_assoc]
  rfl

theorem show_rs485_on (dev : String) (conf : serial_rs485)
    (h : has_flag conf.flags SER_RS485_ENABLED) :
    show_rs485 dev conf =
      [dev ++ ": rs485 on",
       "delay-before-send: " ++ printf_d conf.delay_rts_before_send,
       "delay-after-send: " ++ printf_d conf.delay_rts_after_send,
       "rts-on-send: " ++ (if has_flag conf.flags SER_RS485_RTS_ON_SEND then "1" else "0"),
       "rts-after-send: " ++ (if has_flag conf.flags SER_RS485_RTS_AFTER_SEND then "1" else "0"),
       "rx-during-tx: " ++ (if has_flag conf.flags SER_RS485_RX_DURING_TX then "1" else "0")] := by
  unfold has_flag at h
  simp only [show_rs485, flag_bit_eq, if_neg h, if_pos h]
  rw [String.append_assoc]
  rfl

/-- C13: the report. For every device name and record, `show_rs485` prints
`<device>: rs485 off` and nothing else when `SER_RS485_ENABLED` is clear;
when it is set it prints `<device>: rs485 on` and then exactly five lines,
in the order delay-before-send, delay-after-send, rts-on-send,
rts-after-send, rx-during-tx, each flag as `0` or `1` and each delay as
`printf("%d")` writes it: for a delay below 2^31 its decimal digits, from
2^31 on a minus sign and the decimal digits of 2^32 minus the delay. -/
theorem C13_show_rs485_lines (dev : String) (conf : serial_rs485) :
    (¬ has_flag conf.flags SER_RS485_ENABLED →
      show_rs485 dev conf = [dev ++ ": rs485 off"]) ∧
    (has_flag conf.flags SER_RS485_ENABLED →
      show_rs485 dev conf =
        [dev ++ ": rs485 on",
         "delay-before-send: " ++ printf_d conf.delay_rts_before_send,
         "delay-after-send: " ++ printf_d conf.delay_rts_after_send,
         "rts-on-send: " ++
           (if has_flag conf.flags SER_RS485_RTS_ON_SEND then "1" else "0"),
         "rts-after-send: " ++
           (if has_flag conf.flags SER_RS485_RTS_AFTER_SEND then "1" else "0"),
         "rx-during-tx: " ++
           (if has_flag conf.flags SER_RS485_RX_DURING_TX then "1" else "0")]) ∧
    (conf.delay_rts_before_send < 2 ^ 31 →
      printf_d conf.delay_rts_before_send = Nat.repr conf.delay_rts_before_send) ∧
    (conf.delay_rts_after_send < 2 ^ 31 →
      printf_d conf.delay_rts_after_send = Nat.repr conf.delay_rts_after_send) ∧
    (2 ^ 31 ≤ conf.delay_rts_before_send →
      printf_d conf.delay_rts_before_send
        = "-" ++ Nat.repr (2 ^ 32 - conf.delay_rts_before_send)) ∧
    (2 ^ 31 ≤ conf.delay_rts_after_send →
      printf_d conf.delay_rts_after_send
        = "-" ++ Nat.repr (2 ^ 32 - conf.delay_rts_after_send)) :=
  ⟨show_rs485_off dev conf, show_rs485_on dev conf,
    fun h => printf_d_small _ h, fun h => printf_d_small _ h,
    fun h => printf_d_large _ h, fun h => printf_d_large _ h⟩

/-- Witness for C13: a disabled record, and an enabled record with delays
5 and 100, on-send and rx-during-tx set. -/
theorem C13_show_rs485_lines_witness :
    show_rs485 "/dev/ttyS1" ⟨6, 5, 100, [0, 0, 0, 0, 0]⟩ = ["/dev/ttyS1: rs485 off"] ∧
    show_rs485 "/dev/ttyS1" ⟨19, 5, 100, [0, 0, 0, 0, 0]⟩ =
      ["/dev/ttyS1: rs485 on", "delay-before-send: 5", "delay-after-send: 100",
       "rts-on-send: 1", "rts-after-send: 0", "rx-during-tx: 1"] ∧
    printf_d 100 = "100" :=
  ⟨(C13_show_rs485_lines "/dev/ttyS1" ⟨6, 5, 100, [0, 0, 0, 0, 0]⟩).1 (by decide),
   ((C13_show_rs485_lines "/dev/ttyS1" ⟨19, 5, 100, [0, 0, 0, 0, 0]⟩).2.1 (by decide)).trans
     (by decide),
   ((C13_show_rs485_lines "/dev/ttyS1" ⟨19, 5, 100, [0, 0, 0, 0, 0]⟩).2.2.2.1
     (by decide)).trans (by decide)⟩

/-! ## An end-to-end run -/

/-- C14: end-to-end scenario. The command `on --rts-after-send
--delay-after-send=5 <dev>` on a kernel that reports the all-zero record
and puts the written record in effect unchanged: the options resolve to
delay-after-send 5, `SER_RS485_RTS_AFTER_SEND` to set and
`SER_RS485_RTS_ON_SEND` to clear; the record written has flags
`SER_RS485_ENABLED | SER_RS485_RTS_AFTER_SEND` (on-send and rx-during-tx
clear), delay-before-send 0 and delay-after-send 5; the workaround is not
applied; nothing is written to standard error; and the report shows the
`on` line and all five setting lines with `rts-after-send: 1`. -/
theorem C14_end_to_end_after_send (dev : String) (k : Backend)
    (hopen : k.open_ok dev = true) (hget : k.get = some zero_conf)
    (hset : k.set ⟨5, 0, 5, [0, 0, 0, 0, 0]⟩ = some ⟨5, 0, 5, [0, 0, 0, 0, 0]⟩) :
    parse_options [.OPT_RTS_AFTER_SEND none, .OPT_DELAY_AFTER_SEND "5"]
      = .ok ⟨-1, 5, SER_RS485_RTS_AFTER_SEND, SER_RS485_RTS_ON_SEND, 0⟩ ∧
    action_on ⟨-1, 5, SER_RS485_RTS_AFTER_SEND, SER_RS485_RTS_ON_SEND, 0⟩ zero_conf
      = (⟨SER_RS485_ENABLED ||| SER_RS485_RTS_AFTER_SEND, 0, 5, [0, 0, 0, 0, 0]⟩, false) ∧
    (SER_RS485_ENABLED ||| SER_RS485_RTS_AFTER_SEND = 5 ∧
      ¬ has_flag 5 SER_RS485_RTS_ON_SEND ∧ ¬ has_flag 5 SER_RS485_RX_DURING_TX) ∧
    main [.OPT_RTS_AFTER_SEND none, .OPT_DELAY_AFTER_SEND "5"] ["on", dev] k
      = ⟨0, [],
          [dev ++ ": rs485 on", "delay-before-send: 0", "delay-after-send: 5",
           "rts-on-send: 0", "rts-after-send: 1", "rx-during-tx: 0"],
          [dev], 1, [⟨5, 0, 5, [0, 0, 0, 0, 0]⟩]⟩ := by
  have hp : parse_options [.OPT_RTS_AFTER_SEND none, .OPT_DELAY_AFTER_SEND "5"]
      = .ok ⟨-1, 5, 4, 2, 0⟩ := by decide
  have ha : apply_action .ACTION_ON ⟨-1, 5, 4, 2, 0⟩ zero_conf
      = (⟨5, 0, 5, [0, 0, 0, 0, 0]⟩, false) := by decide
  have hs : sanity_check ⟨5, 0, 5, [0, 0, 0, 0, 0]⟩ ⟨5, 0, 5, [0, 0, 0, 0, 0]⟩ false = [] := by
    decide
  have hshow : show_rs485 dev ⟨5, 0, 5, [0, 0, 0, 0, 0]⟩ =
      [dev ++ ": rs485 on", "delay-before-send: 0", "delay-after-send: 5",
       "rts-on-send: 0", "rts-after-send: 1", "rx-during-tx: 0"] := by
    rw [show_rs485_on dev _ (by decide)]
    have e1 : ("delay-before-send: " ++ printf_d 0) = "delay-before-send: 0" := by decide
    have e2 : ("delay-after-send: " ++ printf_d 5) = "delay-after-send: 5" := by decide
    have e3 : ("rts-on-send: " ++ if has_flag 5 SER_RS485_RTS_ON_SEND then "1" else "0")
        = "rts-on-send: 0" := by decide
    have e4 : ("rts-after-send: " ++ if has_flag 5 SER_RS485_RTS_AFTER_SEND then "1" else "0")
        = "rts-after-send: 1" := by decide
    have e5 : ("rx-during-tx: " ++ if has_flag 5 SER_RS485_RX_DURING_TX then "1" else "0")
        = "rx-during-tx: 0" := by decide
    simp only [e1, e2, e3, e4, e5]
  refine ⟨hp, by decide, by decide, ?_⟩
  rw [main_eq_run_action _ ["on", dev] k _ .ACTION_ON dev hp (by simp [parse_positional])]
  simp [run_action, hopen, hget, ha, hset, hs, hshow]

/-- Witness for C14 on the kernel `backend_fresh` and the device
`/dev/ttyS1`. -/
theorem C14_end_to_end_after_send_witness :
    main [.OPT_RTS_AFTER_SEND none, .OPT_DELAY_AFTER_SEND "5"] ["on", "/dev/ttyS1"]
        backend_fresh
      = ⟨0, [],
          ["/dev/ttyS1: rs485 on", "delay-before-send: 0", "delay-after-send: 5",
           "rts-on-send: 0", "rts-after-send: 1", "rx-during-tx: 0"],
          ["/dev/ttyS1"], 1, [⟨5, 0, 5, [0, 0, 0, 0, 0]⟩]⟩ :=
  (C14_end_to_end_after_send "/dev/ttyS1" backend_fresh (by decide) (by decide)
    (by decide)).2.2.2

/-! ## Exactly one RTS bit after an explicit choice -/

/-- C17: mutual exclusion after an explicit choice. For every record read
from the kernel and every sequence of events that `parse_options`
processes to the end, if the last RTS-pair event selects on-send the record
of the `on` branch has `SER_RS485_RTS_ON_SEND` set and
`SER_RS485_RTS_AFTER_SEND` clear, if it selects after-send the reverse, and
in both cases the workaround is not applied. For every record and every
option state whatever, the record of the `on` branch has
`SER_RS485_ENABLED` set and at least one of the two RTS bits set. -/
theorem C17_one_rts_bit_after_choice :
    (∀ (events : List Event) (o : Opts) (conf : serial_rs485),
      parse_options events = .ok o →
      (last_rts_choice events = some .on_send →
        has_flag (action_on o conf).1.flags SER_RS485_RTS_ON_SEND ∧
        ¬ has_flag (action_on o conf).1.flags SER_RS485_RTS_AFTER_SEND ∧
        (action_on o conf).2 = false) ∧
      (last_rts_choice events = some .after_send →
        has_flag (action_on o conf).1.flags SER_RS485_RTS_AFTER_SEND ∧
        ¬ has_flag (action_on o conf).1.flags SER_RS485_RTS_ON_SEND ∧
        (action_on o conf).2 = false)) ∧
    (∀ (o : Opts) (conf : serial_rs485),
      has_flag (action_on o conf).1.flags SER_RS485_ENABLED ∧
      (has_flag (action_on o conf).1.flags SER_RS485_RTS_ON_SEND ∨
        has_flag (action_on o conf).1.flags SER_RS485_RTS_AFTER_SEND)) := by
  constructor
  · intro events o conf h
    have key := (parse_options_from_rts events Opts.init o h).1
    have hk := action_on_hack_iff o conf
    constructor
    · intro hl
      have hb := key _ hl
      simp only [Opts.rts_bits, RtsChoice.bits, Prod.mk.injEq] at hb
      obtain ⟨⟨a, b⟩, c, d⟩ := hb
      simp only [has_flag_on_send, has_flag_after_send, action_on_testBit]
      cases hh : (action_on o conf).2 <;> simp [a, b, c, d, hh] at hk ⊢
    · intro hl
      have hb := key _ hl
      simp only [Opts.rts_bits, RtsChoice.bits, Prod.mk.injEq] at hb
      obtain ⟨⟨a, b⟩, c, d⟩ := hb
      simp only [has_flag_on_send, has_flag_after_send, action_on_testBit]
      cases hh : (action_on o conf).2 <;> simp [a, b, c, d, hh] at hk ⊢
  · intro o conf
    have hk := action_on_hack_iff o conf
    simp only [has_flag_on_send, has_flag_after_send, has_flag_enabled, action_on_testBit]
    refine ⟨by simp, ?_⟩
    cases hh : (action_on o conf).2
    · simp only [hh, Bool.false_eq_true, false_iff] at hk
      simp only [Bool.false_and, Bool.or_false, decide_False, Nat.one_lt_ofNat, decide_True,
        Bool.true_bne, Nat.reduceEqDiff, Nat.reduceLT, Nat.succ_ne_self]
      by_contra hcon
      apply hk
      simp only [not_or, Bool.not_eq_true, Bool.or_eq_false_iff] at hcon
      simp_all
    · simp

/-- Witness for C17: `--rts-on-send --no-rts-on-send` on a record that
holds both RTS bits. -/
theorem C17_one_rts_bit_after_choice_witness :
    has_flag (action_on ⟨-1, -1, 4, 2, 0⟩ ⟨7, 0, 0, [0, 0, 0, 0, 0]⟩).1.flags
      SER_RS485_RTS_AFTER_SEND ∧
    ¬ has_flag (action_on ⟨-1, -1, 4, 2, 0⟩ ⟨7, 0, 0, [0, 0, 0, 0, 0]⟩).1.flags
      SER_RS485_RTS_ON_SEND ∧
    (action_on ⟨-1, -1, 4, 2, 0⟩ ⟨7, 0, 0, [0, 0, 0, 0, 0]⟩).2 = false :=
  (C17_one_rts_bit_after_choice.1 [.OPT_RTS_ON_SEND none, .OPT_NO_RTS_ON_SEND]
    ⟨-1, -1, 4, 2, 0⟩ ⟨7, 0, 0, [0, 0, 0, 0, 0]⟩ (by decide)).2 (by decide)

/-! ## Action `on` applied twice -/

theorem serial_rs485_eq (a b : serial_rs485) (h1 : a.flags = b.flags)
    (h2 : a.delay_rts_before_send = b.delay_rts_before_send)
    (h3 : a.delay_rts_after_send = b.delay_rts_after_send)
    (h4 : a.padding = b.padding) : a = b := by
  cases a
  cases b
  simp_all

theorem action_on_twice_hack (o : Opts) (conf : serial_rs485) :
    (action_on o (action_on o conf).1).2 = true ↔
      (action_on o conf).2 = true ∧ o.opt_flags_off.testBit 1 = true := by
  have h1 := action_on_hack_iff o conf
  have h2 := action_on_hack_iff o (action_on o conf).1
  rw [h2]
  simp only [action_on_testBit]
  cases hh : (action_on o conf).2 <;>
    cases c1 : conf.flags.testBit 1 <;> cases c2 : conf.flags.testBit 2 <;>
    cases f1 : o.opt_flags_off.testBit 1 <;> cases f2 : o.opt_flags_off.testBit 2 <;>
    cases n1 : o.opt_flags_on.testBit 1 <;> cases n2 : o.opt_flags_on.testBit 2 <;>
    simp [hh, c1, c2, f1, f2, n1, n2] at h1 ⊢

theorem action_on_twice_flags (o : Opts) (conf : serial_rs485) :
    (action_on o (action_on o conf).1).1.flags = (action_on o conf).1.flags := by
  apply Nat.eq_of_testBit_eq
  intro i
  have h2 := action_on_twice_hack o conf
  rw [action_on_testBit o (action_on o conf).1, action_on_testBit o conf]
  by_cases hi : i = 1
  · subst hi
    cases hh : (action_on o conf).2 <;> cases hh2 : (action_on o (action_on o conf).1).2 <;>
      cases c1 : conf.flags.testBit 1 <;> cases f1 : o.opt_flags_off.testBit 1 <;>
      cases n1 : o.opt_flags_on.testBit 1 <;>
      simp [hh, hh2, c1, f1, n1] at h2 ⊢
  · by_cases h0 : i = 0
    · subst h0
      simp
    · by_cases h32 : i < 32 <;>
        cases c1 : conf.flags.testBit i <;> cases f1 : o.opt_flags_off.testBit i <;>
        cases n1 : o.opt_flags_on.testBit i <;> simp [hi, h0, h32]

/-- C18: action `on` is idempotent on the record. For every record read
from the kernel and every option state that `parse_options` returns (its
masks are disjoint), the `on` branch applied to its own result gives that
same record again, and this second computation does not apply the
workaround. -/
theorem C18_on_twice_same_record (events : List Event) (o : Opts) (conf : serial_rs485)
    (h : parse_options events = .ok o) :
    o.opt_flags_on &&& o.opt_flags_off = 0 ∧
    action_on o (action_on o conf).1 = ((action_on o conf).1, false) := by
  have e1 := action_on_eq o conf
  have e2 := action_on_eq o (action_on o conf).1
  have ht := action_on_twice_hack o conf
  have hrec : (action_on o (action_on o conf).1).1 = (action_on o conf).1 := by
    apply serial_rs485_eq
    · exact action_on_twice_flags o conf
    · rw [e2.2.2.2.1, e1.2.2.2.1]
      split <;> rfl
    · rw [e2.2.2.2.2, e1.2.2.2.2]
      split <;> rfl
    · rw [e2.2.2.1]
  have hhack : (action_on o (action_on o conf).1).2 = false := by
    have hbits := parse_options_rts_bits events o h
    have hk := action_on_hack_iff o conf
    simp only [Opts.rts_bits, RtsChoice.bits, Prod.mk.injEq] at hbits
    cases hh2 : (action_on o (action_on o conf).1).2
    · rfl
    · exfalso
      have := ht.1 hh2
      rcases hbits with ⟨⟨a, b⟩, c, d⟩ | ⟨⟨a, b⟩, c, d⟩ | ⟨⟨a, b⟩, c, d⟩ <;>
        simp [a, b, c, d, this.1] at hk this
  exact ⟨parse_options_disjoint events o h, Prod.ext hrec hhack⟩

/-- Witness for C18: `--rx-during-tx --delay-before-send=3` on the all-zero
record: the first `on` applies the workaround (flags 19), the second gives
the same record without it. -/
theorem C18_on_twice_same_record_witness :
    (action_on ⟨3, -1, 16, 0, 0⟩ zero_conf).2 = true ∧
    action_on ⟨3, -1, 16, 0, 0⟩ (action_on ⟨3, -1, 16, 0, 0⟩ zero_conf).1
      = ((action_on ⟨3, -1, 16, 0, 0⟩ zero_conf).1, false) :=
  ⟨by decide,
    (C18_on_twice_same_record [.OPT_RX_DURING_TX none, .OPT_DELAY_BEFORE_SEND "3"]
      ⟨3, -1, 16, 0, 0⟩ zero_conf (by decide)).2⟩

/-! ## The sanity check against the spec's verification step -/

/-- C15 as stated fails: `on` without options on the all-zero record
applies the workaround and asks for flags 3; when the kernel puts exactly
that record in effect, the code writes no warning, while the spec's
algorithm compares flags 1 (on-send cleared) with flags 3 and warns. -/
theorem C15_code_silent_where_spec_warns :
    apply_action .ACTION_ON Opts.init zero_conf = (⟨3, 0, 0, [0, 0, 0, 0, 0]⟩, true) ∧
    (run_action .ACTION_ON "/dev/ttyS1" Opts.init backend_fresh).stderr = [] ∧
    sanity_check ⟨3, 0, 0, [0, 0, 0, 0, 0]⟩ ⟨3, 0, 0, [0, 0, 0, 0, 0]⟩ true = [] ∧
    spec_verification ⟨3, 0, 0, [0, 0, 0, 0, 0]⟩ ⟨3, 0, 0, [0, 0, 0, 0, 0]⟩ true
      = [mismatch_warning] := by
  decide

/-- C15, amended: for every wanted record, record written back by the
kernel and workaround flag, the code writes no warning when the two records
are equal, and otherwise writes exactly what the spec's algorithm gives:
the warning when `expected` (the wanted record, with
`SER_RS485_RTS_ON_SEND` cleared if the workaround was applied) differs from
the record written back. So the code warns exactly when the spec's
algorithm warns and the kernel did not return the wanted record
unchanged. -/
theorem C15_check_is_spec_check_unless_equal (wanted_conf conf : serial_rs485)
    (rts_on_send_hack : Bool) :
    sanity_check wanted_conf conf rts_on_send_hack =
      (if wanted_conf = conf then [] else spec_verification wanted_conf conf rts_on_send_hack) ∧
    (sanity_check wanted_conf conf rts_on_send_hack = [mismatch_warning] ↔
      spec_verification wanted_conf conf rts_on_send_hack = [mismatch_warning] ∧
        wanted_conf ≠ conf) := by
  have key : sanity_check wanted_conf conf rts_on_send_hack =
      (if wanted_conf = conf then []
        else spec_verification wanted_conf conf rts_on_send_hack) := by
    by_cases heq : wanted_conf = conf
    · simp [sanity_check, memcmp, heq]
    · cases rts_on_send_hack <;>
        simp [sanity_check, memcmp, heq, spec_verification, spec_expected]
  refine ⟨key, ?_⟩
  rw [key]
  by_cases heq : wanted_conf = conf
  · simp [heq]
  · simp [heq]

/-! ## The suppression hides nothing else -/

/-- C16 as stated fails: there is no wanted record and record written back
that differ in a field or bit other than `SER_RS485_RTS_ON_SEND` and for
which the check of a run with the workaround stays silent. -/
theorem C16_no_unrelated_mismatch_is_masked :
    ¬ ∃ wanted_conf conf : serial_rs485,
      ¬ same_except_rts_on_send conf wanted_conf ∧ sanity_check wanted_conf conf true = [] := by
  rintro ⟨wanted_conf, conf, hne, hs⟩
  rw [sanity_check_not_same wanted_conf conf true hne] at hs
  cases hs

/-- C16, amended: the suppression cannot mask an unrelated mismatch. For
every wanted record, record written back and workaround flag, if the two
records differ in a delay, a reserved word or a flag bit other than
`SER_RS485_RTS_ON_SEND`, the check writes exactly the one warning; with the
workaround applied the check is silent only when the records agree in all
of those. -/
theorem C16_unrelated_mismatch_always_warns (wanted_conf conf : serial_rs485)
    (rts_on_send_hack : Bool) :
    (¬ same_except_rts_on_send conf wanted_conf →
      sanity_check wanted_conf conf rts_on_send_hack = [mismatch_warning]) ∧
    (sanity_check wanted_conf conf rts_on_send_hack = [] →
      same_except_rts_on_send conf wanted_conf) := by
  refine ⟨fun h => sanity_check_not_same wanted_conf conf rts_on_send_hack h, ?_⟩
  intro hs
  by_contra h
  rw [sanity_check_not_same wanted_conf conf rts_on_send_hack h] at hs
  cases hs

/-- Witness for C16, amended: the workaround was applied (wanted flags 3)
and the kernel dropped on-send but also changed delay-after-send to 5. -/
theorem C16_unrelated_mismatch_always_warns_witness :
    sanity_check ⟨3, 0, 0, [0, 0, 0, 0, 0]⟩ ⟨1, 0, 5, [0, 0, 0, 0, 0]⟩ true
      = [mismatch_warning] :=
  (C16_unrelated_mismatch_always_warns ⟨3, 0, 0, [0, 0, 0, 0, 0]⟩ ⟨1, 0, 5, [0, 0, 0, 0, 0]⟩
    true).1 (by decide)

/-! ## Positional arguments and usage errors -/

theorem parse_options_from_error_at (pre rest : List Event) (e : Event) (x : Exit) :
    ∀ o0 o : Opts, parse_options_from o0 pre = .ok o → parse_options_switch e o = .error x →
      parse_options_from o0 (pre ++ e :: rest) = .error x := by
  induction pre with
  | nil =>
    intro o0 o h he
    simp only [parse_options_from] at h
    cases h
    simp [parse_options_from, he]
  | cons p ps ih =>
    intro o0 o h he
    simp only [parse_options_from, List.cons_append] at h ⊢
    split at h
    · exact ih _ o h he
    · cases h

theorem main_usage_error_of_parse_options (events : List Event) (args : List String)
    (k : Backend) (x : Exit) (h : parse_options events = .error x) (hx : x.status = 1) :
    (main events args k).usage_error := by
  simp [main, h, Run.early, Run.usage_error, hx]

theorem main_usage_error_of_positional (events : List Event) (args : List String)
    (k : Backend) (o : Opts) (x : Exit) (h : parse_options events = .ok o)
    (hp : parse_positional args = .error x) (hx : x.status = 1) :
    (main events args k).usage_error := by
  have hd : o.opt_flags_on &&& o.opt_flags_off = 0 := parse_options_disjoint events o h
  simp [main, h, hd, hp, Run.early, Run.usage_error, hx]

theorem parse_delay_error_status (a : String) (idx : Nat) (x : Exit)
    (h : parse_delay a idx = .error x) : x.status = 1 := by
  simp only [parse_delay] at h
  split at h
  · cases h; rfl
  · cases h

theorem parse_flag_optarg_error (a : String) (idx : Nat) (h0 : a ≠ "0") (h1 : a ≠ "1") :
    parse_flag_optarg (some a) idx
      = .error ⟨1, "invalid argument to --" ++ long_options_name idx ++ " (must be 0 or 1)"⟩ := by
  simp [parse_flag_optarg, h0, h1]

/-- C12: positional arguments and usage errors. One positional argument
is the device with action show; two are `on`, `off` or `show` and the
device. No positional argument, more than two, another action name, a
delay argument that `parse_delay` rejects and a boolean argument other than
`0` and `1` each end the run with a non-zero status before anything is
opened, read or written. But a delay that is out of range is not always
rejected: `--delay-before-send=4294967296 on /dev/ttyS1` opens the device,
reads and writes the configuration with delay 0 and exits with status 0. -/
theorem C12_positionals_and_usage_errors :
    (∀ (events : List Event) (o : Opts) (k : Backend) (device : String),
      parse_options events = .ok o →
      main events [device] k = run_action .ACTION_SHOW device o k ∧
      main events ["on", device] k = run_action .ACTION_ON device o k ∧
      main events ["off", device] k = run_action .ACTION_OFF device o k ∧
      main events ["show", device] k = run_action .ACTION_SHOW device o k) ∧
    (∀ (events : List Event) (o : Opts) (k : Backend), parse_options events = .ok o →
      (main events [] k).usage_error ∧
      (∀ a b c rest, (main events (a :: b :: c :: rest) k).usage_error) ∧
      (∀ a device, a ≠ "on" → a ≠ "off" → a ≠ "show" →
        (main events [a, device] k).usage_error)) ∧
    (∀ (pre rest : List Event) (o : Opts) (args : List String) (k : Backend) (a : String),
      parse_options pre = .ok o →
      ((∃ x, parse_delay a 0 = .error x) →
        (main (pre ++ .OPT_DELAY_BEFORE_SEND a :: rest) args k).usage_error) ∧
      ((∃ x, parse_delay a 1 = .error x) →
        (main (pre ++ .OPT_DELAY_AFTER_SEND a :: rest) args k).usage_error) ∧
      (a ≠ "0" → a ≠ "1" →
        (main (pre ++ .OPT_RTS_ON_SEND (some a) :: rest) args k).usage_error ∧
        (main (pre ++ .OPT_RTS_AFTER_SEND (some a) :: rest) args k).usage_error ∧
        (main (pre ++ .OPT_RX_DURING_TX (some a) :: rest) args k).usage_error)) ∧
    main [.OPT_DELAY_BEFORE_SEND "4294967296"] ["on", "/dev/ttyS1"] backend_fresh
      = ⟨0, [],
          ["/dev/ttyS1: rs485 on", "delay-before-send: 0", "delay-after-send: 0",
           "rts-on-send: 1", "rts-after-send: 0", "rx-during-tx: 0"],
          ["/dev/ttyS1"], 1, [⟨3, 0, 0, [0, 0, 0, 0, 0]⟩]⟩ := by
  refine ⟨?_, ?_, ?_, by decide⟩
  · intro events o k device h
    exact ⟨main_eq_run_action _ _ k o _ device h (by simp [parse_positional]),
      main_eq_run_action _ _ k o _ device h (by simp [parse_positional]),
      main_eq_run_action _ _ k o _ device h (by simp [parse_positional]),
      main_eq_run_action _ _ k o _ device h (by simp [parse_positional])⟩
  · intro events o k h
    refine ⟨?_, ?_, ?_⟩
    · exact main_usage_error_of_positional events [] k o _ h rfl rfl
    · intro a b c rest
      exact main_usage_error_of_positional events _ k o _ h rfl rfl
    · intro a device h1 h2 h3
      exact main_usage_error_of_positional events [a, device] k o
        ⟨1, "invalid action " ++ a⟩ h (by simp [parse_positional, h1, h2, h3]) rfl
  · intro pre rest o args k a h
    refine ⟨?_, ?_, ?_⟩
    · rintro ⟨x, hx⟩
      apply main_usage_error_of_parse_options _ args k x _ (parse_delay_error_status a 0 x hx)
      apply parse_options_from_error_at pre rest _ x Opts.init o h
      simp [parse_options_switch, Event.opt_index, hx]
    · rintro ⟨x, hx⟩
      apply main_usage_error_of_parse_options _ args k x _ (parse_delay_error_status a 1 x hx)
      apply parse_options_from_error_at pre rest _ x Opts.init o h
      simp [parse_options_switch, Event.opt_index, hx]
    · intro h0 h1
      refine ⟨?_, ?_, ?_⟩
      · apply main_usage_error_of_parse_options _ args k
          ⟨1, "invalid argument to --" ++ long_options_name 2 ++ " (must be 0 or 1)"⟩ _ rfl
        apply parse_options_from_error_at pre rest _ _ Opts.init o h
        simp only [parse_options_switch, Event.opt_index, parse_flag_optarg_error a _ h0 h1]
      · apply main_usage_error_of_parse_options _ args k
          ⟨1, "invalid argument to --" ++ long_options_name 4 ++ " (must be 0 or 1)"⟩ _ rfl
        apply parse_options_from_error_at pre rest _ _ Opts.init o h
        simp only [parse_options_switch, Event.opt_index, parse_flag_optarg_error a _ h0 h1]
      · apply main_usage_error_of_parse_options _ args k
          ⟨1, "invalid argument to --" ++ long_options_name 6 ++ " (must be 0 or 1)"⟩ _ rfl
        apply parse_options_from_error_at pre rest _ _ Opts.init o h
        simp only [parse_options_switch, Event.opt_index, parse_flag_optarg_error a _ h0 h1]

/-- Witness for C12: `-q --delay-after-send=101 --rts-on-send on
/dev/ttyS1` and `-q turn-on /dev/ttyS1` both end as usage errors. -/
theorem C12_positionals_and_usage_errors_witness :
    (main ([.q] ++ .OPT_DELAY_AFTER_SEND "101" :: [.OPT_RTS_ON_SEND none])
      ["on", "/dev/ttyS1"] backend_fresh).usage_error ∧
    (main [.q] ["turn-on", "/dev/ttyS1"] backend_fresh).usage_error :=
  ⟨(C12_positionals_and_usage_errors.2.2.1 [.q] [.OPT_RTS_ON_SEND none] ⟨-1, -1, 0, 0, 1⟩
      ["on", "/dev/ttyS1"] backend_fresh "101" (by decide)).2.1
      ⟨⟨1, "invalid argument to --delay-after-send (must be integer in [0, 100])"⟩,
        by decide⟩,
   (C12_positionals_and_usage_errors.2.1 [.q] ⟨-1, -1, 0, 0, 1⟩ backend_fresh
      (by decide)).2.2 "turn-on" "/dev/ttyS1" (by decide) (by decide) (by decide)⟩

end Rs485ctl

namespace Md

/-! ## Arithmetic of the masks and shifts -/

theorem and_15 (a : Nat) : a &&& 15 = a % 16 :=
  Nat.and_pow_two_sub_one_eq_mod a 4

theorem testBit_not_15 (i : Nat) :
    (ULONG_MOD - 16).testBit i = (decide (4 ≤ i) && decide (i < 64)) := by
  have h : ULONG_MOD - 16 = 2 ^ 4 * (2 ^ 60 - 1) := by norm_num [ULONG_MOD]
  rw [h, Nat.testBit_mul_pow_two, Nat.testBit_two_pow_sub_one]
  by_cases h4 : 4 ≤ i
  · by_cases h64 : i < 64
    · have : i - 4 < 60 := by omega
      simp [h4, h64, this]
    · have : ¬ i - 4 < 60 := by omega
      simp [h4, h64, this]
  · simp [h4]

theorem and_not_15 (a : Nat) (h : a < ULONG_MOD) : a &&& (ULONG_MOD - 16) = a - a % 16 := by
  have e : a - a % 16 = 2 ^ 4 * (a / 2 ^ 4) := by
    have := Nat.div_add_mod a 16
    norm_num
    omega
  rw [e]
  apply Nat.eq_of_testBit_eq
  intro i
  rw [Nat.testBit_and, testBit_not_15, Nat.testBit_mul_pow_two, ← Nat.shiftRight_eq_div_pow,
    Nat.testBit_shiftRight]
  by_cases h4 : 4 ≤ i
  · have e2 : 4 + (i - 4) = i := by omega
    by_cases h64 : i < 64
    · simp [h4, h64, e2]
    · have hb : a.testBit i = false := by
        apply Nat.testBit_lt_two_pow
        calc a < 2 ^ 64 := h
          _ ≤ 2 ^ i := Nat.pow_le_pow_right (by norm_num) (by omega)
      simp [h4, h64, e2, hb]
  · simp [h4]

theorem valid_width (g : Globals) (hg : g.valid) :
    (g.width = 1 ∨ g.width = 2 ∨ g.width = 4 ∨ g.width = 8) ∧ g.width = 2 ^ g.wshift := by
  obtain ⟨h, -⟩ := hg
  rcases h with ⟨a, b⟩ | ⟨a, b⟩ | ⟨a, b⟩ | ⟨a, b⟩ <;> simp [a, b]

theorem and_wmask (g : Globals) (hg : g.valid) (x : Nat) : x &&& g.wmask = x % g.width := by
  have hw := (valid_width g hg).2
  rw [hg.2, hw]
  exact Nat.and_pow_two_sub_one_eq_mod x g.wshift

theorem shift_wshift (g : Globals) (hg : g.valid) (x : Nat) : x >>> g.wshift = x / g.width := by
  rw [(valid_width g hg).2, Nat.shiftRight_eq_div_pow]

theorem width_dvd_16 (g : Globals) (hg : g.valid) : g.width ∣ 16 := by
  rcases (valid_width g hg).1 with h | h | h | h <;> rw [h] <;> decide

theorem width_pos (g : Globals) (hg : g.valid) : 0 < g.width := by
  rcases (valid_width g hg).1 with h | h | h | h <;> omega

/-! ## Hexadecimal output and the bytes of a line -/

theorem hex_digits_length_le (f : Nat) :
    ∀ (v d : Nat), 0 < d → v < 16 ^ d → (hex_digits f v).length ≤ d := by
  induction f with
  | zero =>
    intro v d _ _
    simp [hex_digits]
  | succ f ih =>
    intro v d hd hv
    simp only [hex_digits]
    split
    · simpa using hd
    · rename_i h16
      have hd2 : 2 ≤ d := by
        by_contra hcon
        have : d = 1 := by omega
        subst this
        omega
      have hv2 : v / 16 < 16 ^ (d - 1) := by
        apply Nat.div_lt_of_lt_mul
        have : 16 * 16 ^ (d - 1) = 16 ^ d := by
          rw [← Nat.pow_succ']
          congr 1
          omega
        omega
      have := ih (v / 16) (d - 1) (by omega) hv2
      simp only [List.length_append, List.length_singleton]
      omega

theorem printf_0x_length (d v : Nat) (hd : 0 < d) (hv : v < 16 ^ d) :
    (printf_0x d v).length = d := by
  have := hex_digits_length_le 16 v d hd hv
  simp only [printf_0x, List.length_append, List.length_replicate]
  omega

theorem le_value_lt (l : List Nat) : le_value l < 256 ^ l.length := by
  induction l with
  | nil => simp [le_value]
  | cons b bs ih =>
    simp only [le_value, List.length_cons, Nat.pow_succ]
    have : b % 256 < 256 := Nat.mod_lt _ (by norm_num)
    omega

theorem get_le_lt (u8 : List Nat) (w idx v : Nat) (h : get_le u8 w idx = some v) :
    v < 16 ^ (2 * w) := by
  unfold get_le at h
  split at h
  · cases h
    have h1 := le_value_lt ((u8.drop (idx * w)).take w)
    have h2 : ((u8.drop (idx * w)).take w).length ≤ w := by
      simp only [List.length_take]
      omega
    have h3 : 256 ^ ((u8.drop (idx * w)).take w).length ≤ 256 ^ w :=
      Nat.pow_le_pow_right (by norm_num) h2
    have h4 : (16 : Nat) ^ (2 * w) = 256 ^ w := by
      rw [Nat.pow_mul]
    omega
  · cases h

theorem le_bytes_length (n v : Nat) : (le_bytes n v).length = n := by
  induction n generalizing v with
  | zero => rfl
  | succ n ih => simp [le_bytes, ih]

theorem set_le_ok (u8 : List Nat) (w idx v : Nat) (hl : u8.length = 16)
    (h : (idx + 1) * w ≤ 16) :
    ∃ u8n, set_le u8 w idx v = some u8n ∧ u8n.length = 16 := by
  refine ⟨u8.take (idx * w) ++ le_bytes w v ++ u8.drop (idx * w + w),
    by simp only [set_le, if_pos h], ?_⟩
  have e : (idx + 1) * w = idx * w + w := by ring
  simp only [List.length_append, List.length_take, List.length_drop, le_bytes_length, hl]
  omega

/-! ## The inner loops run to the end -/

theorem len_step (g : Globals) (k : Nat) (h : (k + 1) * g.width ≤ 16) :
    ((k + 1) * g.width + ULONG_MOD - g.width) % ULONG_MOD = k * g.width := by
  have e : (k + 1) * g.width = k * g.width + g.width := by ring
  have hM : ULONG_MOD = 18446744073709551616 := by norm_num [ULONG_MOD]
  rw [e] at h ⊢
  have e2 : k * g.width + g.width + ULONG_MOD - g.width = k * g.width + ULONG_MOD := by omega
  rw [e2, Nat.add_mod_right]
  apply Nat.mod_eq_of_lt
  omega

theorem print_line_values_ok (g : Globals) (hg : g.valid) (u8 : List Nat) :
    ∀ (k fuel idx count : Nat), k ≤ fuel → (idx + k) * g.width ≤ 16 →
      ∃ txt, print_line_values g u8 fuel idx (k * g.width) count
          = .ok (txt, count + k * (1 + 2 * g.width)) ∧
        txt.length = k * (1 + 2 * g.width) := by
  have hw := width_pos g hg
  have hv := (valid_width g hg).1
  intro k
  induction k with
  | zero =>
    intro fuel idx count _ _
    refine ⟨[], ?_, by simp⟩
    unfold print_line_values
    simp
  | succ k ih =>
    intro fuel idx count hf hb
    obtain ⟨f, rfl⟩ : ∃ f, fuel = f + 1 := ⟨fuel - 1, by omega⟩
    have hne : (k + 1) * g.width ≠ 0 := by
      have : 0 < (k + 1) * g.width := Nat.mul_pos (by omega) hw
      omega
    have hb1 : (idx + 1) * g.width ≤ 16 := by
      have : (idx + 1) * g.width ≤ (idx + (k + 1)) * g.width :=
        Nat.mul_le_mul_right _ (by omega)
      omega
    have hb2 : (k + 1) * g.width ≤ 16 := by
      have : (k + 1) * g.width ≤ (idx + (k + 1)) * g.width :=
        Nat.mul_le_mul_right _ (by omega)
      omega
    have hget : get_le u8 g.width idx
        = some (le_value ((u8.drop (idx * g.width)).take g.width)) := by
      simp only [get_le, if_pos hb1]
    have hlt := get_le_lt u8 g.width idx _ hget
    have hlen := printf_0x_length (2 * g.width)
      (le_value ((u8.drop (idx * g.width)).take g.width)) (by omega) hlt
    obtain ⟨txt, h1, h2⟩ := ih f (idx + 1)
      (count + (1 + 2 * g.width)) (by omega) (by
        have : idx + 1 + k = idx + (k + 1) := by omega
        rw [this]; exact hb)
    refine ⟨(' ' :: printf_0x (2 * g.width)
      (le_value ((u8.drop (idx * g.width)).take g.width))) ++ txt, ?_, ?_⟩
    · unfold print_line_values
      simp only [if_neg hne, if_pos hv, hget, len_step g k hb2, List.length_cons, hlen]
      have e : count + (2 * g.width + 1) = count + (1 + 2 * g.width) := by omega
      rw [e, h1]
      have e2 : count + (1 + 2 * g.width) + k * (1 + 2 * g.width)
          = count + (k + 1) * (1 + 2 * g.width) := by ring
      simp only [e2]
    · simp only [List.length_append, List.length_cons, hlen, h2]
      ring

theorem dump_fill_ok (g : Globals) (hg : g.valid) (m : DevMem) (page : Nat) :
    ∀ (k fuel index addr : Nat) (u8 : List Nat), k ≤ fuel → (index + k) * g.width ≤ 16 →
      u8.length = 16 → addr < ULONG_MOD →
      ∃ u8n, dump_fill g m page fuel index (k * g.width) addr u8
          = .ok (u8n, (addr + k * g.width) % ULONG_MOD) ∧ u8n.length = 16 := by
  have hw := width_pos g hg
  have hv := (valid_width g hg).1
  intro k
  induction k with
  | zero =>
    intro fuel index addr u8 _ _ hl ha
    refine ⟨u8, ?_, hl⟩
    unfold dump_fill
    simp [Nat.mod_eq_of_lt ha]
  | succ k ih =>
    intro fuel index addr u8 hf hb hl ha
    obtain ⟨f, rfl⟩ : ∃ f, fuel = f + 1 := ⟨fuel - 1, by omega⟩
    have hne : (k + 1) * g.width ≠ 0 := by
      have : 0 < (k + 1) * g.width := Nat.mul_pos (by omega) hw
      omega
    have hb1 : (index + 1) * g.width ≤ 16 := by
      have : (index + 1) * g.width ≤ (index + (k + 1)) * g.width :=
        Nat.mul_le_mul_right _ (by omega)
      omega
    have hb2 : (k + 1) * g.width ≤ 16 := by
      have : (k + 1) * g.width ≤ (index + (k + 1)) * g.width :=
        Nat.mul_le_mul_right _ (by omega)
      omega
    obtain ⟨u8n, hset, hln⟩ := set_le_ok u8 g.width index
      (read_mem m g.width (page + page_offset addr)) hl hb1
    have hM : 0 < ULONG_MOD := by norm_num [ULONG_MOD]
    obtain ⟨u8f, h1, h2⟩ := ih f (index + 1) ((addr + g.width) % ULONG_MOD) u8n (by omega)
      (by
        have : index + 1 + k = index + (k + 1) := by omega
        rw [this]; exact hb) hln (Nat.mod_lt _ hM)
    refine ⟨u8f, ?_, h2⟩
    unfold dump_fill
    simp only [if_neg hne, if_pos hv, hset, len_step g k hb2, h1]
    have e : (addr + g.width) % ULONG_MOD + k * g.width ≡ addr + (k + 1) * g.width
        [MOD ULONG_MOD] := by
      have e1 : addr + (k + 1) * g.width = (addr + g.width) + k * g.width := by ring
      rw [e1]
      exact Nat.ModEq.add_right _ (Nat.mod_modEq _ _)
    rw [e]

/-! ## One line -/

theorem star_width_small (p : Nat) (h : p < 2147483648) : star_width (p % ULONG_MOD) = p := by
  have hM : ULONG_MOD = 18446744073709551616 := by norm_num [ULONG_MOD]
  have e : p % ULONG_MOD = p := Nat.mod_eq_of_lt (by omega)
  have e2 : p % 4294967296 = p := Nat.mod_eq_of_lt (by omega)
  simp only [star_width, e, e2, if_pos h]

theorem print_line_middle_ok (g : Globals) (hg : g.valid) (fuel : Nat) (l : line)
    (ho : l.offset % g.width = 0) (hl : l.len % g.width = 0)
    (hs : l.offset + l.len ≤ 16) (hf : 16 ≤ fuel) :
    ∃ middle, print_line_middle g fuel l = .ok middle ∧
      middle.length = (1 + 2 * g.width) * (l.offset / g.width) + 52 := by
  have hw := width_pos g hg
  have hv := (valid_width g hg).1
  have eo : l.offset / g.width * g.width = l.offset :=
    Nat.div_mul_cancel (Nat.dvd_of_mod_eq_zero ho)
  have el : l.len / g.width * g.width = l.len :=
    Nat.div_mul_cancel (Nat.dvd_of_mod_eq_zero hl)
  have hk : l.len / g.width ≤ 16 := by
    have : l.len / g.width ≤ l.len := Nat.div_le_self _ _
    omega
  have hi : l.offset / g.width ≤ 16 := by
    have : l.offset / g.width ≤ l.offset := Nat.div_le_self _ _
    omega
  obtain ⟨txt, h1, h2⟩ := print_line_values_ok g hg l.u8 (l.len / g.width) fuel
    (l.offset / g.width) 0 (by omega) (by rw [Nat.add_mul, eo, el]; exact hs)
  rw [el] at h1
  have hcount : l.len / g.width * (1 + 2 * g.width) ≤ 52 := by
    have e : l.len / g.width * (1 + 2 * g.width)
        = l.len / g.width + 2 * (l.len / g.width * g.width) := by ring
    rw [e, el]
    omega
  have hpad : (1 + 2 * g.width) * (l.offset / g.width) < 2147483648 := by
    have e : (1 + 2 * g.width) * (l.offset / g.width)
        = l.offset / g.width + 2 * (l.offset / g.width * g.width) := by ring
    rw [e, eo]
    omega
  refine ⟨List.replicate ((1 + 2 * g.width) * (l.offset / g.width)) ' ' ++ txt ++
      List.replicate (52 - l.len / g.width * (1 + 2 * g.width)) ' ', ?_, ?_⟩
  · simp only [print_line_middle, shift_wshift g hg, h1, star_width_small _ hpad, Nat.zero_add]
  · simp only [List.length_append, List.length_replicate, h2]
    omega

theorem print_line_ok (g : Globals) (hg : g.valid) (fuel : Nat) (l : line)
    (hb : l.base % 16 = 0) (ho : l.offset % g.width = 0) (hl : l.len % g.width = 0)
    (hs : l.offset + l.len ≤ 16) (hf : 16 ≤ fuel) :
    ∃ middle, print_line g fuel l
        = .ok (printf_0x 8 l.base ++ [':'] ++ middle ++ print_line_ascii l.u8
            ++ [Char.ofNat 10]) ∧
      print_line_middle g fuel l = .ok middle ∧
      middle.length = (1 + 2 * g.width) * (l.offset / g.width) + 52 := by
  obtain ⟨middle, h1, h2⟩ := print_line_middle_ok g hg fuel l ho hl hs hf
  refine ⟨middle, ?_, h1, h2⟩
  simp only [print_line, and_15, and_wmask g hg, hb, ho, hl, ne_eq, not_true_eq_false,
    if_false, h1]

/-! ## The loop of `dump` -/

theorem dump_loop_ok (g : Globals) (hg : g.valid) (m : DevMem)
    (hm : ∀ p, m.mmap_ok p = true) (fuel : Nat) (hf : 16 ≤ fuel) :
    ∀ (n addr size : Nat) (map : Option Nat), size ≤ n → addr % g.width = 0 →
      size % g.width = 0 → addr + size < ULONG_MOD →
      ∃ out, dump_loop g m fuel n addr size map = .ok out ∧
        (∀ p ∈ out, p.1.base % 16 = 0 ∧ p.1.offset % g.width = 0 ∧ p.1.len % g.width = 0 ∧
          0 < p.1.len ∧ p.1.offset + p.1.len ≤ 16 ∧ p.1.u8.length = 16 ∧
          print_line g fuel p.1 = .ok p.2) ∧
        consecutive addr (out.map Prod.fst) ∧
        (out.map fun p => p.1.len).sum = size := by
  have hw := width_pos g hg
  have hd := width_dvd_16 g hg
  have hM : ULONG_MOD = 18446744073709551616 := by norm_num [ULONG_MOD]
  intro n
  induction n with
  | zero =>
    intro addr size map hn _ _ _
    have : size = 0 := by omega
    subst this
    refine ⟨[], ?_, by simp, by simp [consecutive], by simp⟩
    unfold dump_loop
    simp
  | succ n ih =>
    intro addr size map hn ha hsz hsum
    by_cases h0 : size = 0
    · subst h0
      refine ⟨[], ?_, by simp, by simp [consecutive], by simp⟩
      unfold dump_loop
      simp
    · have hoff : addr % 16 < 16 := Nat.mod_lt _ (by norm_num)
      have hoffw : addr % 16 % g.width = 0 := by
        rw [Nat.mod_mod_of_dvd addr hd]
        exact ha
      have h16w : (16 - addr % 16) % g.width = 0 := by
        apply Nat.mod_eq_zero_of_dvd
        exact Nat.dvd_sub' hd (Nat.dvd_of_mod_eq_zero hoffw)
      have hlen : ∃ len, (if 16 - addr % 16 > size then size else 16 - addr % 16) = len ∧
          len % g.width = 0 ∧ 0 < len ∧ len ≤ size ∧ addr % 16 + len ≤ 16 := by
        refine ⟨_, rfl, ?_, ?_, ?_, ?_⟩
        · split
          · exact hsz
          · exact h16w
        · split <;> omega
        · split <;> omega
        · split <;> omega
      obtain ⟨len, hlen_eq, hlw, hlpos, hlsz, hl16⟩ := hlen
      have ek : len / g.width * g.width = len :=
        Nat.div_mul_cancel (Nat.dvd_of_mod_eq_zero hlw)
      have eo : addr % 16 / g.width * g.width = addr % 16 :=
        Nat.div_mul_cancel (Nat.dvd_of_mod_eq_zero hoffw)
      have hk : len / g.width ≤ len := Nat.div_le_self _ _
      obtain ⟨u8n, hfill, hu8⟩ := dump_fill_ok g hg m (page_addr addr) (len / g.width) fuel
        (addr % 16 / g.width) addr (List.replicate 16 0) (by omega)
        (by rw [Nat.add_mul, eo, ek]; exact hl16) (by simp) (by omega)
      rw [ek, Nat.mod_eq_of_lt (by omega : addr + len < ULONG_MOD)] at hfill
      have hbase : (addr - addr % 16) % 16 = 0 := by omega
      obtain ⟨text, hpl⟩ : ∃ text, print_line g fuel
          ⟨u8n, addr - addr % 16, addr % 16, len⟩ = .ok text := by
        obtain ⟨middle, h, -, -⟩ := print_line_ok g hg fuel
          ⟨u8n, addr - addr % 16, addr % 16, len⟩ hbase hoffw hlw hl16 hf
        exact ⟨_, h⟩
      have hsize : (size + ULONG_MOD - len) % ULONG_MOD = size - len := by
        have e : size + ULONG_MOD - len = size - len + ULONG_MOD := by omega
        rw [e, Nat.add_mod_right]
        exact Nat.mod_eq_of_lt (by omega)
      obtain ⟨rest, hrest, hprops, hcons, hsumr⟩ := ih (addr + len) (size - len)
        (some (page_addr addr)) (by omega)
        (by rw [Nat.add_mod, ha, hlw]; simp)
        (by
          have := Nat.dvd_sub' (Nat.dvd_of_mod_eq_zero hsz) (Nat.dvd_of_mod_eq_zero hlw)
          exact Nat.mod_eq_zero_of_dvd this)
        (by omega)
      refine ⟨(⟨u8n, addr - addr % 16, addr % 16, len⟩, text) :: rest, ?_, ?_, ?_, ?_⟩
      · unfold dump_loop
        simp only [if_neg h0, hm, and_wmask g hg, ha, hsz, and_15, and_not_15 addr (by omega),
          shift_wshift g hg, hlen_eq, hlw, hfill, hpl, hsize, hrest, ne_eq, not_true_eq_false,
          if_false, Bool.true_eq_false, and_false]
      · intro p hp
        rcases List.mem_cons.1 hp with rfl | hp
        · exact ⟨hbase, hoffw, hlw, hlpos, hl16, hu8, hpl⟩
        · exact hprops p hp
      · simp only [List.map_cons, consecutive]
        exact ⟨by omega, hcons⟩
      · simp only [List.map_cons, List.sum_cons, hsumr]
        omega

/-! ## Line splitting and column alignment -/

theorem setup_of_valid (g : Globals) (hg : g.valid) : setup g.width = .ok g := by
  obtain ⟨h, hm⟩ := hg
  cases g with
  | mk w k sh =>
    simp only at h hm
    rcases h with ⟨a, b⟩ | ⟨a, b⟩ | ⟨a, b⟩ | ⟨a, b⟩ <;> subst a <;> subst b <;> subst hm <;>
      simp [setup]

/-- C19: line splitting in `dump` is safe and exact. Let the globals be as
`main` sets them up (`width` 1, 2, 4 or 8, `wmask = width - 1`, `wshift`
its logarithm), `addr` and `size` multiples of `width` with `addr + size`
below 2^64, and let `/dev/mem` open and map. Then with a loop bound of at
least 16 and at least `size`, `dump` (and `main` from the alignment check
on) runs to the end without a failed assertion and without an index
outside the union. For every line it prints, `base` is a multiple of 16,
`offset` and `len` are multiples of `width`, `len` is positive,
`offset + len ≤ 16`, the word indices stay within `16 / width`, and
`print_line` itself runs to the end. The lines are consecutive from
`addr`, and their `len`s add up to `size`. -/
theorem C19_dump_lines_safe_and_exact (g : Globals) (m : DevMem) (fuel addr size : Nat)
    (hg : g.valid) (hopen : m.open_ok = true) (hm : ∀ p, m.mmap_ok p = true)
    (ha : addr % g.width = 0) (hs : size % g.width = 0) (hsum : addr + size < ULONG_MOD)
    (hf : 16 ≤ fuel) (hf2 : size ≤ fuel) :
    ∃ out, dump g m fuel addr size = .ok out ∧
      main_dump m fuel g.width addr size = .ok out ∧
      (∀ p ∈ out, p.1.base % 16 = 0 ∧ p.1.offset % g.width = 0 ∧ p.1.len % g.width = 0 ∧
        0 < p.1.len ∧ p.1.offset + p.1.len ≤ 16 ∧
        p.1.offset / g.width + p.1.len / g.width ≤ 16 / g.width ∧
        print_line g fuel p.1 = .ok p.2) ∧
      consecutive addr (out.map Prod.fst) ∧
      (out.map fun p => p.1.len).sum = size := by
  obtain ⟨out, h1, h2, h3, h4⟩ := dump_loop_ok g hg m hm fuel hf fuel addr size none hf2 ha hs hsum
  have hd : dump g m fuel addr size = .ok out := by
    simp only [dump, hopen, Bool.true_eq_false, if_false, h1]
  refine ⟨out, hd, ?_, ?_, h3, h4⟩
  · have e1 := and_wmask g hg addr
    have e2 := and_wmask g hg size
    rw [hg.2] at e1 e2
    simp only [main_dump, setup_of_valid g hg, e1, e2, ha, hs, ne_eq, not_true_eq_false,
      or_self, if_false, hd]
  · intro p hp
    obtain ⟨a1, a2, a3, a4, a5, -, a7⟩ := h2 p hp
    refine ⟨a1, a2, a3, a4, a5, ?_, a7⟩
    have hw := width_pos g hg
    rw [← Nat.add_div_of_dvd_right (Nat.dvd_of_mod_eq_zero a2)]
    exact Nat.div_le_div_right a5

/-- Witness for C19: `md -w 0x1004 0x1c` on a memory that opens and maps
every page. -/
theorem C19_dump_lines_safe_and_exact_witness :
    ∃ out, dump ⟨4, 3, 2⟩ counting_mem 32 0x1004 0x1c = .ok out ∧
      consecutive 0x1004 (out.map Prod.fst) ∧
      (out.map fun p => p.1.len).sum = 0x1c :=
  let ⟨out, h1, _, _, h4, h5⟩ := C19_dump_lines_safe_and_exact ⟨4, 3, 2⟩ counting_mem 32
    0x1004 0x1c (by decide) rfl (fun _ => rfl) (by decide) (by decide)
    (by norm_num [ULONG_MOD]) (by decide) (by decide)
  ⟨out, h1, h4, h5⟩

/-- C20: the last column of `print_line` is not at a fixed position. For
globals as `main` sets them up and every line with `base` a multiple of
16, `offset` and `len` multiples of `width` and `offset + len ≤ 16`,
`print_line` writes the address and a colon, then
`(1 + 2 * width) * (offset / width) + 52` characters, then the 16
characters of the last column and a newline: the count taken to 52 by the
loop of lines 68-69 leaves out the blanks written for `offset` at line 59.
So a line with `offset = 0` has 52 characters in between whatever its
`len`, and a line with a larger `offset` has more: for `width = 4` the
line of `offset` 4 and `len` 12 has 61 where the full line has 52. -/
theorem C20_last_column_moves_with_offset :
    (∀ (g : Globals) (fuel : Nat) (l : line), g.valid → l.base % 16 = 0 →
      l.offset % g.width = 0 → l.len % g.width = 0 → l.offset + l.len ≤ 16 → 16 ≤ fuel →
      ∃ middle, print_line g fuel l
          = .ok (printf_0x 8 l.base ++ [':'] ++ middle ++ print_line_ascii l.u8
              ++ [Char.ofNat 10]) ∧
        print_line_middle g fuel l = .ok middle ∧
        middle.length = (1 + 2 * g.width) * (l.offset / g.width) + 52 ∧
        (print_line_ascii l.u8).length = 16) ∧
    Except.map List.length
      (print_line_middle ⟨4, 3, 2⟩ 16 ⟨List.replicate 16 0, 0x1000, 4, 12⟩) = .ok 61 ∧
    Except.map List.length
      (print_line_middle ⟨4, 3, 2⟩ 16 ⟨List.replicate 16 0, 0x1010, 0, 16⟩) = .ok 52 ∧
    Except.map List.length
      (print_line ⟨4, 3, 2⟩ 16 ⟨List.replicate 16 0, 0x1000, 4, 12⟩) = .ok 87 ∧
    Except.map List.length
      (print_line ⟨4, 3, 2⟩ 16 ⟨List.replicate 16 0, 0x1010, 0, 16⟩) = .ok 78 := by
  refine ⟨?_, by decide, by decide, by decide, by decide⟩
  intro g fuel l hg hb ho hl hs hf
  obtain ⟨middle, h1, h2, h3⟩ := print_line_ok g hg fuel l hb ho hl hs hf
  exact ⟨middle, h1, h2, h3, by simp [print_line_ascii]⟩

/-- Witness for C20: with `width = 1` the line of `offset` 8 and `len` 8
has 24 + 52 characters between the colon and the last column. -/
theorem C20_last_column_moves_with_offset_witness :
    ∃ middle, print_line_middle ⟨1, 0, 0⟩ 16 ⟨List.replicate 16 65, 0x2000, 8, 8⟩ = .ok middle ∧
      middle.length = (1 + 2 * 1) * (8 / 1) + 52 :=
  let ⟨middle, _, h2, h3, _⟩ := C20_last_column_moves_with_offset.1 ⟨1, 0, 0⟩ 16
    ⟨List.replicate 16 65, 0x2000, 8, 8⟩ (by decide) (by decide) (by decide) (by decide)
    (by decide) (by decide)
  ⟨middle, h2, h3⟩

end Md
